import Mathlib

/-!
Verification of the denormalization / sanitization / batch-sync engine of the
`sql-database-to-elastic-datalake` repository, against a shallow embedding of
its Python source.

The embedding models Python values reaching the sync code as an inductive type
`PyVal`, and translates the relevant functions from the source files:

* `src/src/document_utils.py` — `sanitize_document`, `process_ticket_labels`
* `src/src/utils.py`          — the second copy of `sanitize_document`
* `src/json_encoder.py`       — `_attempt_parse_json_string`, `_normalize_json_fields`
  (with `json.loads` modelled by a fuel-based parser `jsonLoads`)
* `src/src/ticket_sync.py`    — the per-row document build and batch loop of
  `sync_denormalized_tickets`
* `src/src/es_connector.py`   — `bulk_index`
* `src/ticket_sync.py`        — the legacy bulk-failure fallback loop
* `src/src/data_sync.py` and `src/data_lake_sync.py` — `sync_all_tables`
* `src/src/db_connector.py`   — the `DISTINCT ON` latest-status SQL query

Machine-level details that cannot influence the verified properties are
modelled at the granularity noted in the doc comment of each definition.
-/

/--
A Python value as it can reach the sync engine from pandas dataframes.

* `vNaN` is a bare Python/NumPy float NaN, `vNaT` is pandas' missing-timestamp
  marker; both answer `True` to `pd.isna`.
* `vNpInt`/`vNpFloat`/`vNpBool` are NumPy boxed scalars (they have a `dtype`
  attribute and an `item()` method); `vNpFloat none` is a NaN-valued float.
* `vUUID s` is a `uuid.UUID` whose canonical string form is `s`.
* `vTimestamp iso` is a valid (non-NaT) `pd.Timestamp` whose `isoformat()` is
  `iso`; the NaT marker is `vNaT`, not a `vTimestamp`.
* `vBytes s` is a `bytes` object whose `decode("utf-8", errors="ignore")` is `s`.
* `vArray items` is a one-dimensional object-dtype `np.ndarray` or `pd.Series`.
* `vObj b` is any other Python object; when `b = true` the object carries a
  `dtype` attribute on which `np.issubdtype` raises.
-/
inductive PyVal where
  | vNone
  | vNaN
  | vNaT
  | vInt (n : Int)
  | vFloat (q : Rat)
  | vBool (b : Bool)
  | vStr (s : String)
  | vNpInt (n : Int)
  | vNpFloat (q : Option Rat)
  | vNpBool (b : Bool)
  | vUUID (s : String)
  | vTimestamp (iso : String)
  | vBytes (s : String)
  | vDict (fields : List (String × PyVal))
  | vList (items : List PyVal)
  | vArray (items : List PyVal)
  | vObj (dtypeRaises : Bool)

namespace PyVal

/-- `pd.isna` applied to a scalar value (missing markers answer `true`). -/
def isnaScalar : PyVal → Bool
  | .vNone | .vNaN | .vNaT | .vNpFloat none => true
  | _ => false

/-- `pd.api.types.is_scalar`: true for None, numbers, booleans, strings,
bytes, timestamps and the missing markers; false for containers, arrays and
arbitrary objects (including `uuid.UUID`). -/
def isScalarPd : PyVal → Bool
  | .vNone | .vNaN | .vNaT | .vInt _ | .vFloat _ | .vBool _ | .vStr _
  | .vNpInt _ | .vNpFloat _ | .vNpBool _ | .vTimestamp _ | .vBytes _ => true
  | _ => false

mutual
/--
The truth value of `pd.isna(v)` when used directly in an `if`/`or` condition.
For a list or array, `pd.isna` returns an element-wise boolean array whose
truthiness raises `ValueError` when it has two or more elements (modelled as
`.error ()`), is `False` when empty, and is the single element's isna-value
when it has exactly one element (a singleton whose element is itself a
list/array behaves like that inner array).  Scalars, dicts and other objects
give a plain boolean.
-/
def pdIsnaTruthy : PyVal → Except Unit Bool
  | .vList items => pdIsnaItems items
  | .vArray items => pdIsnaItems items
  | v => .ok (isnaScalar v)

/-- Truthiness of element-wise `pd.isna` over the elements of a 1-D
list/array, as described at `pdIsnaTruthy`. -/
def pdIsnaItems : List PyVal → Except Unit Bool
  | [] => .ok false
  | [x] =>
    match x with
    | .vList items => pdIsnaItems items
    | .vArray items => pdIsnaItems items
    | v => .ok (isnaScalar v)
  | _ :: _ :: _ => .error ()
end

/-- Whether `hasattr(v, "item")` holds: NumPy boxed scalars and arrays. -/
def hasItemAttr : PyVal → Bool
  | .vNpInt _ | .vNpFloat _ | .vNpBool _ | .vArray _ => true
  | _ => false

/-- `v.item()`: unboxes a NumPy scalar to the plain Python value; on a
one-element array returns that element; on an array of any other size it
raises `ValueError`. -/
def npItemE : PyVal → Except Unit PyVal
  | .vNpInt n => .ok (.vInt n)
  | .vNpFloat (some q) => .ok (.vFloat q)
  | .vNpFloat none => .ok .vNaN
  | .vNpBool b => .ok (.vBool b)
  | .vArray [x] => .ok x
  | .vArray _ => .error ()
  | v => .ok v

end PyVal

namespace document_utils

open PyVal

/-- One element of the multi-element array branch of
`src/src/document_utils.py` `sanitize_document`:
`None if pd.isna(x) else x.item() if hasattr(x, "item") else x`. -/
def sanitizeArrayElem (x : PyVal) : Except Unit PyVal := do
  let b ← pdIsnaTruthy x
  if b then
    pure .vNone
  else if hasItemAttr x then
    npItemE x
  else
    pure x

/-- The list comprehension over a multi-element array's elements; the first
element whose processing raises aborts the whole comprehension. -/
def sanitizeArrayElems : List PyVal → Except Unit (List PyVal)
  | [] => .ok []
  | x :: rest => do
    let x' ← sanitizeArrayElem x
    let rest' ← sanitizeArrayElems rest
    pure (x' :: rest')

mutual
/--
Embedding of `sanitize_document` from `src/src/document_utils.py` (lines
9–76).  A non-dict input is returned directly; a dict is rebuilt field by
field through the `try`-guarded branch chain (see `sanitizeFieldE`).
-/
def sanitize_document : PyVal → PyVal
  | .vDict fields => .vDict (sanitizeFields fields)
  | v => v

/-- The `for k, v in doc.items()` loop: each field's value goes through the
branch chain; a raising field is replaced by `None` (the `except` clause). -/
def sanitizeFields : List (String × PyVal) → List (String × PyVal)
  | [] => []
  | (k, v) :: rest =>
    (k, match sanitizeFieldE v with
        | .ok r => r
        | .error _ => .vNone) :: sanitizeFields rest

/--
The body of the per-field `try` in `src/src/document_utils.py`, one match arm
per source branch, in source order:

1. `np.ndarray`/`pd.Series`: empty → `[]`; one element → `item()` then
   `pd.isna` check; otherwise the element-wise comprehension.
2. `v is None or (is_scalar(v) and pd.isna(v))` → `None` (the missing
   markers `vNone`, `vNaN`, `vNaT`, `vNpFloat none`).
3./4./5. NumPy integer/float/bool dtypes → plain `int`/`float`/`bool`
   (a NaN NumPy float is already caught by branch 2).  An object whose
   `dtype` attribute makes `np.issubdtype` raise (`vObj true`) raises here.
6. `uuid.UUID` → `str(v)`.
7. `pd.Timestamp` → `isoformat()` (a valid timestamp is never isna).
8. `bytes` → UTF-8 decoding with `errors="ignore"`.
9. dict → recursive `sanitize_document`.
10. list → element-wise recursive `sanitize_document`.
11. everything else passes through.
-/
def sanitizeFieldE : PyVal → Except Unit PyVal
  | .vArray [] => .ok (.vList [])
  | .vArray [x] => do
    let single ← npItemE (.vArray [x])
    let b ← pdIsnaTruthy single
    if b then pure .vNone else pure single
  | .vArray items => do
    let items' ← sanitizeArrayElems items
    pure (.vList items')
  | .vNone => .ok .vNone
  | .vNaN => .ok .vNone
  | .vNaT => .ok .vNone
  | .vNpFloat none => .ok .vNone
  | .vNpInt n => .ok (.vInt n)
  | .vNpFloat (some q) => .ok (.vFloat q)
  | .vNpBool b => .ok (.vBool b)
  | .vObj true => .error ()
  | .vUUID s => .ok (.vStr s)
  | .vTimestamp iso => .ok (.vStr iso)
  | .vBytes s => .ok (.vStr s)
  | .vDict fields => .ok (.vDict (sanitizeFields fields))
  | .vList items => .ok (.vList (sanitizeItems items))
  | v => .ok v

/-- The list branch: `[sanitize_document(item) for item in v]`. -/
def sanitizeItems : List PyVal → List PyVal
  | [] => []
  | x :: rest => sanitize_document x :: sanitizeItems rest
end

/-- The value actually stored for a field: the branch-chain result, or `None`
when the branch chain raised. -/
def sanitizeField (v : PyVal) : PyVal :=
  match sanitizeFieldE v with
  | .ok r => r
  | .error _ => .vNone

end document_utils

namespace utils

open PyVal

mutual
/--
Embedding of the second copy of `sanitize_document`, from
`src/src/utils.py` (lines 20–67).  Identical to the `document_utils` copy
except that it has no array/Series branch and its first branch is the bare
`v is None or pd.isna(v)` (whose truthiness raises on multi-element
lists/arrays — the raise is caught by the per-field `except`, nulling the
field).
-/
def sanitize_document : PyVal → PyVal
  | .vDict fields => .vDict (sanitizeFields fields)
  | v => v

/-- The per-field loop of the `utils.py` copy. -/
def sanitizeFields : List (String × PyVal) → List (String × PyVal)
  | [] => []
  | (k, v) :: rest =>
    (k, match sanitizeFieldE v with
        | .ok r => r
        | .error _ => .vNone) :: sanitizeFields rest

/-- The body of the per-field `try` in `src/src/utils.py`:
`if v is None or pd.isna(v)` first (raising truthiness for containers),
then the same dtype / UUID / Timestamp / bytes / dict / list chain as the
`document_utils` copy.  An array surviving the isna check (size ≤ 1,
object dtype) matches none of the later `isinstance` branches and passes
through. -/
def sanitizeFieldE (v : PyVal) : Except Unit PyVal :=
  match pdIsnaTruthy v with
  | .error e => .error e
  | .ok true => .ok .vNone
  | .ok false =>
    match v with
    | .vNpInt n => .ok (.vInt n)
    | .vNpFloat (some q) => .ok (.vFloat q)
    | .vNpFloat none => .ok .vNone
    | .vNpBool b => .ok (.vBool b)
    | .vObj true => .error ()
    | .vUUID s => .ok (.vStr s)
    | .vTimestamp iso => .ok (.vStr iso)
    | .vBytes s => .ok (.vStr s)
    | .vDict fields => .ok (.vDict (sanitizeFields fields))
    | .vList items => .ok (.vList (sanitizeItems items))
    | w => .ok w

/-- The list branch of the `utils.py` copy. -/
def sanitizeItems : List PyVal → List PyVal
  | [] => []
  | x :: rest => sanitize_document x :: sanitizeItems rest
end

/-- The value stored for a field by the `utils.py` copy. -/
def sanitizeField (v : PyVal) : PyVal :=
  match sanitizeFieldE v with
  | .ok r => r
  | .error _ => .vNone

end utils

namespace PyVal

mutual
/-- The value contains no NumPy array / pandas Series anywhere.  This is the
grammar named by the spec's idempotence property (missing markers, boxed
numerics, identifiers, timestamps, binary, nested dicts and lists). -/
def arrayFree : PyVal → Bool
  | .vDict fields => arrayFreeFields fields
  | .vList items => arrayFreeItems items
  | .vArray _ => false
  | _ => true

/-- `arrayFree` over a dict's fields. -/
def arrayFreeFields : List (String × PyVal) → Bool
  | [] => true
  | (_, v) :: rest => arrayFree v && arrayFreeFields rest

/-- `arrayFree` over a list's items. -/
def arrayFreeItems : List PyVal → Bool
  | [] => true
  | x :: rest => arrayFree x && arrayFreeItems rest
end

mutual
/-- The value contains no Python list and no NumPy array / pandas Series
anywhere (scalars and nested dicts of such only). -/
def containerRowFree : PyVal → Bool
  | .vDict fields => containerRowFreeFields fields
  | .vList _ => false
  | .vArray _ => false
  | _ => true

/-- `containerRowFree` over a dict's fields. -/
def containerRowFreeFields : List (String × PyVal) → Bool
  | [] => true
  | (_, v) :: rest => containerRowFree v && containerRowFreeFields rest
end

end PyVal

namespace pyjson

/-! Model of Python's `json.loads` on the JSON fragment the repository feeds
it: objects, arrays, strings with the single-character escapes, integers and
decimal fractions, `true`/`false`/`null`.  Exponent notation and `\u` escapes
are not modelled (no theorem below depends on them); inputs outside the
fragment make the model parser fail, which only makes the conditional
theorems below vacuous there, never wrong.  Parsed JSON is represented
directly as a `PyVal` (objects as `vDict`, arrays as `vList`, numbers as
`vInt`/`vFloat`). -/

/-- Opening brace character. -/
def lbrace : Char := Char.ofNat 123

/-- Closing brace character. -/
def rbrace : Char := Char.ofNat 125

/-- Drop leading JSON whitespace. -/
def skipWs : List Char → List Char
  | [] => []
  | c :: rest =>
    if c = ' ' ∨ c = '\t' ∨ c = '\n' ∨ c = '\r' then skipWs rest else c :: rest

/-- Consume an expected literal tail (for `null`, `true`, `false`). -/
def expectLit : List Char → List Char → Option (List Char)
  | [], cs => some cs
  | l :: ls, c :: cs => if c = l then expectLit ls cs else none
  | _ :: _, [] => none

/-- Value of one escape character after a backslash. -/
def escChar (c : Char) : Option Char :=
  if c = '"' then some '"'
  else if c = '\\' then some '\\'
  else if c = '/' then some '/'
  else if c = 'n' then some '\n'
  else if c = 't' then some '\t'
  else if c = 'r' then some '\r'
  else if c = 'b' then some (Char.ofNat 8)
  else if c = 'f' then some (Char.ofNat 12)
  else none

/-- Parse the body of a JSON string after its opening quote; returns the
decoded characters and the remainder after the closing quote. -/
def parseStringBody : List Char → Option (List Char × List Char)
  | [] => none
  | c :: rest =>
    if c = '"' then some ([], rest)
    else if c = '\\' then
      match rest with
      | [] => none
      | e :: rest2 => do
        let ec ← escChar e
        let (body, rem) ← parseStringBody rest2
        pure (ec :: body, rem)
    else do
      let (body, rem) ← parseStringBody rest
      pure (c :: body, rem)

/-- Take a maximal run of decimal digits. -/
def takeDigits : List Char → List Char × List Char
  | [] => ([], [])
  | c :: rest =>
    if c.isDigit then
      let (ds, r) := takeDigits rest
      (c :: ds, r)
    else ([], c :: rest)

/-- Numeric value of a digit run. -/
def digitsToNat : List Char → Nat → Nat
  | [], acc => acc
  | c :: rest, acc => digitsToNat rest (acc * 10 + (c.toNat - 48))

/-- Parse a JSON number (integer or decimal fraction; exponents unmodelled). -/
def parseNumber (cs : List Char) : Option (PyVal × List Char) :=
  let (neg, cs1) := match cs with
    | '-' :: r => (true, r)
    | _ => (false, cs)
  match takeDigits cs1 with
  | ([], _) => none
  | (ds, rest) =>
    match rest with
    | '.' :: rest2 =>
      match takeDigits rest2 with
      | ([], _) => none
      | (fs, rest3) =>
        match rest3 with
        | 'e' :: _ => none
        | 'E' :: _ => none
        | _ =>
          let q : Rat := (digitsToNat ds 0 : Rat) +
            (digitsToNat fs 0 : Rat) / ((10 : Rat) ^ fs.length)
          some (.vFloat (if neg then -q else q), rest3)
    | 'e' :: _ => none
    | 'E' :: _ => none
    | _ =>
      let n : Int := (digitsToNat ds 0 : Int)
      some (.vInt (if neg then -n else n), rest)

mutual
/-- Recursive-descent JSON value parser (fuel bounds nesting). -/
def parseVal : Nat → List Char → Option (PyVal × List Char)
  | 0, _ => none
  | fuel + 1, cs =>
    match skipWs cs with
    | [] => none
    | c :: rest =>
      if c = 'n' then (expectLit ['u', 'l', 'l'] rest).map (fun r => (.vNone, r))
      else if c = 't' then (expectLit ['r', 'u', 'e'] rest).map (fun r => (.vBool true, r))
      else if c = 'f' then (expectLit ['a', 'l', 's', 'e'] rest).map (fun r => (.vBool false, r))
      else if c = '"' then (parseStringBody rest).map (fun p => (.vStr (String.mk p.1), p.2))
      else if c = '[' then
        match skipWs rest with
        | ']' :: r => some (.vList [], r)
        | cs2 => (parseItems fuel cs2).map (fun p => (.vList p.1, p.2))
      else if c = lbrace then
        match skipWs rest with
        | c2 :: r =>
          if c2 = rbrace then some (.vDict [], r)
          else (parseMembers fuel (c2 :: r)).map (fun p => (.vDict p.1, p.2))
        | [] => none
      else parseNumber (c :: rest)

/-- Parse one-or-more comma-separated array items up to `]`. -/
def parseItems : Nat → List Char → Option (List PyVal × List Char)
  | 0, _ => none
  | fuel + 1, cs => do
    let (v, r1) ← parseVal fuel cs
    match skipWs r1 with
    | ',' :: r2 => do
      let (xs, r3) ← parseItems fuel r2
      pure (v :: xs, r3)
    | ']' :: r2 => pure ([v], r2)
    | _ => none

/-- Parse one-or-more `"key": value` object members up to the closing brace. -/
def parseMembers : Nat → List Char → Option (List (String × PyVal) × List Char)
  | 0, _ => none
  | fuel + 1, cs =>
    match skipWs cs with
    | '"' :: r0 => do
      let (kb, r1) ← parseStringBody r0
      match skipWs r1 with
      | ':' :: r2 => do
        let (v, r3) ← parseVal fuel r2
        match skipWs r3 with
        | c4 :: r4 =>
          if c4 = ',' then do
            let (ms, r5) ← parseMembers fuel r4
            pure ((String.mk kb, v) :: ms, r5)
          else if c4 = rbrace then pure ([(String.mk kb, v)], r4)
          else none
        | [] => none
      | _ => none
    | _ => none
end

/-- `json.loads`: parse a whole string, requiring only whitespace after the
value; `none` models `JSONDecodeError` (or a number form outside the
modelled fragment). -/
def jsonLoads (s : String) : Option PyVal :=
  match parseVal (s.length + 1) s.toList with
  | some (v, rest) => if skipWs rest = [] then some v else none
  | none => none

end pyjson

namespace json_encoder

open PyVal pyjson

/-- Whether `json.loads` produced a dict or a list. -/
def isContainer : PyVal → Bool
  | .vDict _ | .vList _ => true
  | _ => false

/-- Embedding of `_attempt_parse_json_string` from `src/json_encoder.py`
(lines 23–32): a string is parsed and replaced by the parse result when that
result is a dict or list; anything else (including parse failures and
non-container parses) returns the original value. -/
def attemptParseJsonString : PyVal → PyVal
  | .vStr s =>
    match jsonLoads s with
    | some j => if isContainer j then j else .vStr s
    | none => .vStr s
  | v => v

mutual
/-- Embedding of `_normalize_json_fields` from `src/json_encoder.py` (lines
34–41): recursively convert stringified JSON dict-field values into real
objects.  The fuel bounds the recursion into freshly parsed values; in
Python the recursion terminates because every parsed string is strictly
longer than the strings it contains, and every theorem below instantiates
the fuel explicitly. -/
def normalize_json_fields (fuel : Nat) : PyVal → PyVal
  | .vDict fields => .vDict (normalizeFields fuel fields)
  | .vList items => .vList (normalizeItems fuel items)
  | v => v
termination_by v => (fuel, sizeOf v)

/-- The dict comprehension of `_normalize_json_fields`:
`{k: _normalize_json_fields(_attempt_parse_json_string(v)) for k, v in data.items()}`. -/
def normalizeFields (fuel : Nat) : List (String × PyVal) → List (String × PyVal)
  | [] => []
  | (k, v) :: rest =>
    (k, match fuel with
        | 0 => attemptParseJsonString v
        | fuel' + 1 => normalize_json_fields fuel' (attemptParseJsonString v)) ::
      normalizeFields fuel rest
termination_by fs => (fuel, sizeOf fs)

/-- The list comprehension of `_normalize_json_fields` (items are recursed
into but not themselves parse-attempted). -/
def normalizeItems (fuel : Nat) : List PyVal → List PyVal
  | [] => []
  | x :: rest =>
    (match fuel with
     | 0 => x
     | fuel' + 1 => normalize_json_fields fuel' x) :: normalizeItems fuel rest
termination_by xs => (fuel, sizeOf xs)
end

end json_encoder

namespace PyVal

/-- First-match lookup in a Python dict modelled as an association list (the
dicts built by the sync code never repeat a key). -/
def lookupField : List (String × PyVal) → String → Option PyVal
  | [], _ => none
  | (k, v) :: rest, key => if k = key then some v else lookupField rest key

/-- Python dict assignment `doc[key] = v`: overwrite in place when the key is
present (keeping its insertion position), append otherwise. -/
def setField : List (String × PyVal) → String → PyVal → List (String × PyVal)
  | [], key, v => [(key, v)]
  | (k, w) :: rest, key, v =>
    if k = key then (k, v) :: rest else (k, w) :: setField rest key v

/-- Python `str()` of a value, as used in f-strings.  Only the scalar cases
are relied on by any theorem; container and object reprs are placeholders. -/
def pyStr : PyVal → String
  | .vNone => "None"
  | .vNaN => "nan"
  | .vNaT => "NaT"
  | .vInt n => toString n
  | .vFloat q => toString q
  | .vBool b => if b then "True" else "False"
  | .vStr s => s
  | .vNpInt n => toString n
  | .vNpFloat (some q) => toString q
  | .vNpFloat none => "nan"
  | .vNpBool b => if b then "True" else "False"
  | .vUUID s => s
  | .vTimestamp iso => iso
  | .vBytes s => s
  | .vDict _ => "<dict repr>"
  | .vList _ => "<list repr>"
  | .vArray _ => "<array repr>"
  | .vObj _ => "<object repr>"

/-- Numeric value of a Python number for `==` purposes (`bool` is an `int`;
NumPy scalars compare by value; NaN is not numeric-equal to anything). -/
def numVal : PyVal → Option Rat
  | .vInt n => some n
  | .vFloat q => some q
  | .vNpInt n => some n
  | .vNpFloat (some q) => some q
  | .vBool b => some (if b then 1 else 0)
  | .vNpBool b => some (if b then 1 else 0)
  | _ => none

/-- Python `==` as used by dict key lookup, restricted to the hashable
values that can appear as ticket ids: numbers compare by value, strings,
UUIDs, timestamps and bytes by content, `None` to itself; NaN and NaT are
not equal to themselves; everything else (and any cross-type pair) is
unequal. -/
def pyEq (a b : PyVal) : Bool :=
  match numVal a, numVal b with
  | some x, some y => x == y
  | _, _ =>
    match a, b with
    | .vNone, .vNone => true
    | .vStr s, .vStr t => s == t
    | .vUUID s, .vUUID t => s == t
    | .vBytes s, .vBytes t => s == t
    | .vTimestamp s, .vTimestamp t => s == t
    | _, _ => false

/-- Whether a value can be a dict key (`hash()` succeeds): dicts, lists and
arrays are unhashable; scalars and arbitrary objects are hashable. -/
def keyHashable : PyVal → Bool
  | .vDict _ | .vList _ | .vArray _ => false
  | _ => true

mutual
/-- Whether `json.dumps(v, cls=CustomJSONEncoder)` succeeds: the encoder
extends plain JSON types with UUID, `pd.Timestamp` and `datetime`; NumPy
scalars, NaT, bytes, arrays and arbitrary objects raise `TypeError`
(plain NaN floats serialize as the non-strict `NaN` literal). -/
def jsonSerializable : PyVal → Bool
  | .vNone | .vNaN | .vInt _ | .vFloat _ | .vBool _ | .vStr _
  | .vUUID _ | .vTimestamp _ => true
  | .vDict fields => jsonSerializableFields fields
  | .vList items => jsonSerializableItems items
  | _ => false

/-- `jsonSerializable` over a dict's fields. -/
def jsonSerializableFields : List (String × PyVal) → Bool
  | [] => true
  | (_, v) :: rest => jsonSerializable v && jsonSerializableFields rest

/-- `jsonSerializable` over a list's items. -/
def jsonSerializableItems : List PyVal → Bool
  | [] => true
  | x :: rest => jsonSerializable x && jsonSerializableItems rest
end

mutual
/-- The permissive fallback `json.loads(json.dumps(doc, default=str))`:
JSON-native values survive unchanged, containers recurse, and everything
else is replaced by its `str()` form. -/
def stringifyAll : PyVal → PyVal
  | .vDict fields => .vDict (stringifyFields fields)
  | .vList items => .vList (stringifyItems items)
  | .vNone => .vNone
  | .vNaN => .vNaN
  | .vInt n => .vInt n
  | .vFloat q => .vFloat q
  | .vBool b => .vBool b
  | .vStr s => .vStr s
  | v => .vStr (pyStr v)

/-- `stringifyAll` over a dict's fields. -/
def stringifyFields : List (String × PyVal) → List (String × PyVal)
  | [] => []
  | (k, v) :: rest => (k, stringifyAll v) :: stringifyFields rest

/-- `stringifyAll` over a list's items. -/
def stringifyItems : List PyVal → List PyVal
  | [] => []
  | x :: rest => stringifyAll x :: stringifyItems rest
end

end PyVal

/-- One action prepared for the Elasticsearch bulk API: its `_id` and its
`_source` document (`_op_type` and `_index` are constant per pass). -/
structure BulkAction where
  id : String
  source : PyVal

namespace es_connector

/--
The `elasticsearch.helpers.bulk(..., raise_on_error=False)` collaborator:
when the transport works, it reports the number of successfully indexed
actions plus the list of rejected items; a batch-level transport failure
raises instead (`.error ()`).  `itemFails` gives each action's per-item
outcome.
-/
def bulkHelper (transportRaises : Bool) (itemFails : BulkAction → Bool)
    (actions : List BulkAction) : Except Unit (Nat × List BulkAction) :=
  if transportRaises then .error ()
  else .ok ((actions.filter (fun a => !itemFails a)).length, actions.filter itemFails)

/-- Embedding of `ElasticsearchConnector.bulk_index` from
`src/src/es_connector.py` (lines 51–74): the helper's result is passed
through, and a raised transport failure is caught, logged, and turned into
`(0, [])`. -/
def bulk_index (transportRaises : Bool) (itemFails : BulkAction → Bool)
    (actions : List BulkAction) : Nat × List BulkAction :=
  match bulkHelper transportRaises itemFails actions with
  | .ok r => r
  | .error _ => (0, [])

/-- The caller-side counter update after one `bulk_index` call
(`src/src/data_sync.py` lines 153–166): `successful_docs += success_count;
failed_docs += len(failed_items)`. -/
def counterUpdate (counters : Nat × Nat) (result : Nat × List BulkAction) :
    Nat × Nat :=
  (counters.1 + result.1, counters.2 + result.2.length)

end es_connector

namespace legacy_ticket_sync

/-- Outcome of one `es_client.index` call in the legacy fallback loop:
either the call raises, or it returns a response whose `result` field is the
given string. -/
inductive IndexOutcome where
  | raises
  | result (r : String)

/-- The per-document fallback loop of `src/ticket_sync.py` (lines 520–536):
each action is indexed individually; a `created`/`updated` result counts as
success, anything else (including a raise) as failure. -/
def fallbackIndexLoop (outcome : BulkAction → IndexOutcome) :
    List BulkAction → Nat → Nat → Nat × Nat
  | [], succ, fail => (succ, fail)
  | a :: rest, succ, fail =>
    match outcome a with
    | .raises => fallbackIndexLoop outcome rest succ (fail + 1)
    | .result r =>
      if r = "created" ∨ r = "updated" then
        fallbackIndexLoop outcome rest (succ + 1) fail
      else fallbackIndexLoop outcome rest succ (fail + 1)

/-- The batch-indexing block of `src/ticket_sync.py` (lines 499–536): when
the bulk helper raises, the per-document fallback loop runs over the whole
batch; otherwise the helper's success/failure counts accumulate.  Returns
the updated `(successful_docs, failed_docs)` counters. -/
def indexBatch (transportRaises : Bool) (itemFails : BulkAction → Bool)
    (outcome : BulkAction → IndexOutcome) (actions : List BulkAction)
    (succ fail : Nat) : Nat × Nat :=
  if actions.isEmpty then (succ, fail)
  else
    match es_connector.bulkHelper transportRaises itemFails actions with
    | .ok (s, f) => (succ + s, fail + f.length)
    | .error _ => fallbackIndexLoop outcome actions succ fail

end legacy_ticket_sync

namespace data_sync

/-- The five entity kinds synced by `DataLakeSync.sync_all_tables` in
`src/src/data_sync.py`, in call order. -/
inductive EntityKind where
  | dataSources
  | users
  | modules
  | statuses
  | labels
deriving DecidableEq

/-- The fixed call order of `sync_all_tables`. -/
def kindOrder : List EntityKind :=
  [.dataSources, .users, .modules, .statuses, .labels]

/-- The body of the single `try` of `sync_all_tables`: attempt each kind in
order; the first raising kind aborts the remaining calls and transfers to
the `except` branch.  Returns (kinds attempted, whether the except branch
ran). -/
def attemptKinds (fails : EntityKind → Bool) : List EntityKind → List EntityKind × Bool
  | [] => ([], false)
  | k :: rest =>
    if fails k then ([k], true)
    else
      let (att, e) := attemptKinds fails rest
      (k :: att, e)

/-- Embedding of `DataLakeSync.sync_all_tables` from `src/src/data_sync.py`
(lines 923–934): the five per-kind passes run inside one `try`; `fails k`
says whether kind `k`'s pass raises.  The method always returns normally
(the exception is caught and logged). -/
def sync_all_tables (fails : EntityKind → Bool) : List EntityKind × Bool :=
  attemptKinds fails kindOrder

end data_sync

namespace data_lake_sync

/-- Embedding of `DataLakeSync.sync_all_tables` from `src/data_lake_sync.py`
(lines 158–169): a per-table loop whose body is wrapped in its own
`try`/`except`, so every table is attempted; returns each attempted table
paired with whether its sync raised (and was logged). -/
def sync_all_tables (fails : String → Bool) : List String → List (String × Bool)
  | [] => []
  | t :: rest => (t, fails t) :: sync_all_tables fails rest

end data_lake_sync

namespace db_connector

/-- One row of the `TicketStatus` history joined with `Status`, as selected
by the `latest_status` CTE of `DatabaseConnector.get_tickets_and_labels`
(`src/src/db_connector.py` lines 261–269).  `createdAt` is the row's
creation timestamp (timestamps are totally ordered). -/
structure StatusRow where
  ticketId : String
  statusId : String
  statusName : String
  isFinalStatus : Bool
  createdAt : Nat
deriving DecidableEq

/-- The `ORDER BY ts."ticketId", ts."createdAt" DESC` sort order: `r` comes
no later than `r'` when its ticket id is smaller, or ids are equal and its
timestamp is no older than `r'`'s (descending). -/
def rowLe (r r' : StatusRow) : Bool :=
  decide (r.ticketId < r'.ticketId ∨
    (r.ticketId = r'.ticketId ∧ r'.createdAt ≤ r.createdAt))

/-- Stable insertion step of the sort implementing the `ORDER BY`. -/
def orderedInsertRow (r : StatusRow) : List StatusRow → List StatusRow
  | [] => [r]
  | r' :: rest => if rowLe r r' then r :: r' :: rest else r' :: orderedInsertRow r rest

/-- The `ORDER BY` of the CTE, as a stable insertion sort.  On the inputs of
the theorems below the sort key is strictly totally ordered, so any correct
sort produces this same list. -/
def orderRows : List StatusRow → List StatusRow
  | [] => []
  | r :: rest => orderedInsertRow r (orderRows rest)

/-- `SELECT DISTINCT ON (ts."ticketId")`: keep the first row per ticket id
in sort order. -/
def distinctOnTicket : List StatusRow → List StatusRow
  | [] => []
  | r :: rest =>
    r :: distinctOnTicket (rest.filter (fun r2 => r2.ticketId ≠ r.ticketId))
termination_by rows => rows.length
decreasing_by
  simp
  exact Nat.lt_succ_of_le (List.length_filter_le _ _)

/-- The `latest_status` CTE: sort by (ticket id asc, created desc), then
keep the first row of each ticket-id group. -/
def latest_status (rows : List StatusRow) : List StatusRow :=
  distinctOnTicket (orderRows rows)

end db_connector

namespace ticket_sync

open PyVal

/-- A dataframe row, as produced by `df.iterrows()`: column name to value. -/
abbrev Row := List (String × PyVal)

/-- The grouped labels dict `labels_by_ticket`: ticket-id key (a Python
value, normally a string) to the list of label sub-documents. -/
abbrev LabelsMap := List (PyVal × List PyVal)

/-- `row["ticketId"]` (or `row["color"]` etc.) with `KeyError` modelled as
`.error ()`. -/
def rowGet (row : Row) (key : String) : Except Unit PyVal :=
  match lookupField row key with
  | some v => .ok v
  | none => .error ()

/-- The ticket-id extraction of `sync_denormalized_tickets` (lines
101–103): `row["ticket_id"]`, converting a UUID to its string form. -/
def rowTicketId (row : Row) : Except Unit PyVal := do
  let v ← rowGet row "ticket_id"
  pure (match v with
    | .vUUID s => .vStr s
    | w => w)

/-- The UUID-to-string conversion applied to ids in
`process_ticket_labels`. -/
def uuidToStr : PyVal → PyVal
  | .vUUID s => .vStr s
  | v => v

/-- The key and label sub-document built from one `df_labels` row by
`process_ticket_labels` (`src/src/document_utils.py` lines 81–97): the
`ticketId` key (UUID → string), and
`{"id": label_id, "name": label_name, "color": color-or-None}` where the
`pd.notna(row["color"])` truthiness can raise. -/
def labelRowEntry (row : Row) : Except Unit (PyVal × PyVal) := do
  let tid ← rowGet row "ticketId"
  let tid := uuidToStr tid
  let lid ← rowGet row "label_id"
  let lid := uuidToStr lid
  let name ← rowGet row "label_name"
  let color ← rowGet row "color"
  let colorNa ← pdIsnaTruthy color
  pure (tid, .vDict [("id", lid), ("name", name),
    ("color", if colorNa then .vNone else color)])

/-- Append an entry to its ticket-id group, creating the group at the end
of the dict when the key matches no existing group (Python `==` on keys). -/
def addLabelGo : LabelsMap → PyVal → PyVal → LabelsMap
  | [], key, entry => [(key, [entry])]
  | (k, es) :: rest, key, entry =>
    if pyEq k key then (k, es ++ [entry]) :: rest
    else (k, es) :: addLabelGo rest key entry

/-- `if ticket_id not in labels_by_ticket: ... ; labels_by_ticket[ticket_id].append(e)`:
membership and indexing use Python `==` over the keys; an unhashable key
raises. -/
def addLabel (m : LabelsMap) (key : PyVal) (entry : PyVal) :
    Except Unit LabelsMap :=
  if keyHashable key then
    .ok (addLabelGo m key entry)
  else .error ()

/-- The fold of `process_ticket_labels` over the label rows. -/
def processLabelsGo : List Row → LabelsMap → Except Unit LabelsMap
  | [], m => .ok m
  | r :: rest, m => do
    let (key, entry) ← labelRowEntry r
    let m' ← addLabel m key entry
    processLabelsGo rest m'

/-- Embedding of `process_ticket_labels` from `src/src/document_utils.py`
(lines 78–99): fold the label rows into the grouped dict; any raising row
aborts the whole grouping (there is no `try` around this loop). -/
def process_ticket_labels (rows : List Row) : Except Unit LabelsMap :=
  processLabelsGo rows []

/-- First group whose key Python-equals the lookup key, else the default. -/
def labelsGetGo : LabelsMap → PyVal → List PyVal
  | [], _ => []
  | (k, es) :: rest, key => if pyEq k key then es else labelsGetGo rest key

/-- `labels_by_ticket.get(ticket_id, [])`: default empty list when the key
matches nothing; an unhashable key raises. -/
def labelsGet (m : LabelsMap) (key : PyVal) : Except Unit (List PyVal) :=
  if keyHashable key then
    .ok (labelsGetGo m key)
  else .error ()

/-- The per-column conversion of the document build loop
(`src/src/ticket_sync.py` lines 107–119): UUID → string, Timestamp →
isoformat, `pd.isna(val)` (raising truthiness) → None, else unchanged. -/
def convertVal (val : PyVal) : Except Unit PyVal :=
  match val with
  | .vUUID s => .ok (.vStr s)
  | .vTimestamp iso => .ok (.vStr iso)
  | v => do
    let b ← pdIsnaTruthy v
    pure (if b then .vNone else v)

/-- The `for col in batch_df.columns` loop building `doc` (lines 106–119). -/
def buildDocFields : Row → Except Unit Row
  | [] => .ok []
  | (k, v) :: rest => do
    let v' ← convertVal v
    let rest' ← buildDocFields rest
    pure ((k, v') :: rest')

/-- The stringified-JSON handling of the `ticket_data` field (lines
121–128): when the field holds a string, parse it and replace the field by
the sanitized parse result; on a parse failure log and leave the field. -/
def handleTicketData (doc : Row) : Row :=
  match lookupField doc "ticket_data" with
  | some (.vStr s) =>
    match pyjson.jsonLoads s with
    | some j => setField doc "ticket_data" (document_utils.sanitize_document j)
    | none => doc
  | _ => doc

/-- Lookup into an action's `_source` (which is always a dict). -/
def sourceLookup (source : PyVal) (key : String) : Option PyVal :=
  match source with
  | .vDict fields => lookupField fields key
  | _ => none

/--
The per-row body of the batch loop of `sync_denormalized_tickets`
(`src/src/ticket_sync.py` lines 99–171): extract and convert the ticket id,
build the column document, parse `ticket_data`, attach the labels list, the
pass timestamp `indexed_at`, and the derived `document_id`
(`f"{ticket_id}_{index_timestamp}"`), sanitize, and serialize — falling
back to `json.dumps(..., default=str)` when the custom encoder raises (the
fallback itself cannot raise, so the only row failures are the earlier
steps, caught by the per-row `except`).
-/
def buildTicketAction (ts : String) (labels : LabelsMap) (row : Row) :
    Except Unit BulkAction := do
  let tid ← rowTicketId row
  let fields0 ← buildDocFields row
  let fields1 := handleTicketData fields0
  let lbls ← labelsGet labels tid
  let fields2 := setField fields1 "labels" (.vList lbls)
  let fields3 := setField fields2 "indexed_at" (.vStr ts)
  let docId := pyStr tid ++ "_" ++ ts
  let fields4 := setField fields3 "document_id" (.vStr docId)
  let sanitized := document_utils.sanitize_document (.vDict fields4)
  let src := if jsonSerializable sanitized then sanitized else stringifyAll sanitized
  pure ⟨docId, src⟩

/-- The inner `for idx, row in batch_df.iterrows()` loop: collect actions,
counting rows whose processing raised. -/
def buildActions (ts : String) (labels : LabelsMap) : List Row → List BulkAction × Nat
  | [] => ([], 0)
  | r :: rest =>
    let (acts, f) := buildActions ts labels rest
    match buildTicketAction ts labels r with
    | .ok a => (a :: acts, f)
    | .error _ => (acts, f + 1)

/-- One dispatched bulk request of the pass: its actions, its refresh flag
(`refresh=(batch_end == total_count)`), and the batch bounds. -/
structure BulkCall where
  actions : List BulkAction
  refresh : Bool
  batchStart : Nat
  batchEnd : Nat

/--
The batch loop of `sync_denormalized_tickets` (lines 92–195):
`for batch_start in range(0, total_count, batch_size)` with
`batch_end = min(batch_start + batch_size, total_count)` and
`batch_df = df_tickets.iloc[batch_start:batch_end]`; a bulk request is
dispatched only when the batch produced at least one action, with
`refresh=(batch_end == total_count)`.
-/
def batchCalls (ts : String) (labels : LabelsMap) (rows : List Row)
    (bs : Nat) (start : Nat) : List BulkCall :=
  if h : 0 < bs ∧ start < rows.length then
    let e := min (start + bs) rows.length
    let slice := (rows.drop start).take (e - start)
    let acts := (buildActions ts labels slice).1
    (if acts.isEmpty then [] else [⟨acts, decide (e = rows.length), start, e⟩]) ++
      batchCalls ts labels rows bs e
  else []
termination_by rows.length - start
decreasing_by
  simp only [gt_iff_lt]
  omega

/-- The whole denormalized-ticket pass, up to the bulk dispatch boundary:
group the labels (a raising grouping aborts the pass), then run the batch
loop with the pass timestamp `ts` taken once before batching begins. -/
def sync_denormalized_tickets (ts : String) (tickets : List Row)
    (labelRows : List Row) (bs : Nat) : Except Unit (List BulkCall) := do
  let labels ← process_ticket_labels labelRows
  pure (batchCalls ts labels tickets bs 0)

end ticket_sync

/-! ### Theorems -/

namespace document_utils

open PyVal

theorem sanitizeFields_cons (k : String) (v : PyVal)
    (rest : List (String × PyVal)) :
    sanitizeFields ((k, v) :: rest) = (k, sanitizeField v) :: sanitizeFields rest := by
  simp [sanitizeFields, sanitizeField]

theorem sanitizeFields_append (a b : List (String × PyVal)) :
    sanitizeFields (a ++ b) = sanitizeFields a ++ sanitizeFields b := by
  induction a with
  | nil => simp [sanitizeFields]
  | cons kv rest ih =>
    obtain ⟨k, v⟩ := kv
    simp [sanitizeFields_cons, ih]

/--
Strong-induction core for idempotence of the `document_utils` sanitizer on
array-free values: double application of the per-field transformation, the
field loop, the list comprehension, and the top-level function all coincide
with single application.
-/
theorem idem_aux : ∀ n : Nat,
    (∀ v : PyVal, sizeOf v ≤ n → arrayFree v = true →
      sanitizeField (sanitizeField v) = sanitizeField v) ∧
    (∀ fs : List (String × PyVal), sizeOf fs ≤ n → arrayFreeFields fs = true →
      sanitizeFields (sanitizeFields fs) = sanitizeFields fs) ∧
    (∀ xs : List PyVal, sizeOf xs ≤ n → arrayFreeItems xs = true →
      sanitizeItems (sanitizeItems xs) = sanitizeItems xs) ∧
    (∀ v : PyVal, sizeOf v ≤ n → arrayFree v = true →
      sanitize_document (sanitize_document v) = sanitize_document v) := by
  intro n
  induction n with
  | zero =>
    refine ⟨?_, ?_, ?_, ?_⟩
    · intro v h _; exfalso; cases v <;> simp at h
    · intro fs h _; exfalso; cases fs <;> simp at h
    · intro xs h _; exfalso; cases xs <;> simp at h
    · intro v h _; exfalso; cases v <;> simp at h
  | succ n ih =>
    obtain ⟨ihF, ihFs, ihIt, ihDoc⟩ := ih
    have hField : ∀ v : PyVal, sizeOf v ≤ n + 1 → arrayFree v = true →
        sanitizeField (sanitizeField v) = sanitizeField v := by
      intro v hsize hfree
      cases v with
      | vDict fs =>
        have h1 : sizeOf fs ≤ n := by simp at hsize; omega
        have h2 : arrayFreeFields fs = true := by simpa [arrayFree] using hfree
        simp [sanitizeField, sanitizeFieldE]
        exact ihFs fs h1 h2
      | vList xs =>
        have h1 : sizeOf xs ≤ n := by simp at hsize; omega
        have h2 : arrayFreeItems xs = true := by simpa [arrayFree] using hfree
        simp [sanitizeField, sanitizeFieldE]
        exact ihIt xs h1 h2
      | vArray xs => simp [arrayFree] at hfree
      | vObj b => cases b <;> simp [sanitizeField, sanitizeFieldE]
      | vNpFloat q => cases q <;> simp [sanitizeField, sanitizeFieldE]
      | _ => simp [sanitizeField, sanitizeFieldE]
    refine ⟨hField, ?_, ?_, ?_⟩
    · intro fs hsize hfree
      cases fs with
      | nil => simp [sanitizeFields]
      | cons kv rest =>
        obtain ⟨k, v⟩ := kv
        have h1 : sizeOf v ≤ n + 1 := by simp at hsize; omega
        have h2 : sizeOf rest ≤ n + 1 := by simp at hsize; omega
        have h3 : arrayFree v = true ∧ arrayFreeFields rest = true := by
          simpa [arrayFreeFields] using hfree
        rw [sanitizeFields_cons, sanitizeFields_cons]
        rw [hField v h1 h3.1]
        cases rest with
        | nil => simp [sanitizeFields]
        | cons kv2 rest2 =>
          have h4 : sizeOf ((kv2 :: rest2 : List (String × PyVal))) ≤ n := by
            simp at hsize h2 ⊢; omega
          rw [ihFs _ h4 h3.2]
    · intro xs hsize hfree
      cases xs with
      | nil => simp [sanitizeItems]
      | cons x rest =>
        have h1 : sizeOf x ≤ n + 1 := by simp at hsize; omega
        have h2 : sizeOf rest ≤ n := by simp at hsize; omega
        have h3 : arrayFree x = true ∧ arrayFreeItems rest = true := by
          simpa [arrayFreeItems] using hfree
        have hx : sanitize_document (sanitize_document x) = sanitize_document x := by
          cases x with
          | vDict fs =>
            have h5 : sizeOf fs ≤ n := by simp at h1 hsize; omega
            have h6 : arrayFreeFields fs = true := by simpa [arrayFree] using h3.1
            simp [sanitize_document]
            exact ihFs fs h5 h6
          | _ => simp [sanitize_document]
        simp [sanitizeItems]
        exact ⟨hx, ihIt rest h2 h3.2⟩
    · intro v hsize hfree
      cases v with
      | vDict fs =>
        have h1 : sizeOf fs ≤ n := by simp at hsize; omega
        have h2 : arrayFreeFields fs = true := by simpa [arrayFree] using hfree
        simp [sanitize_document]
        exact ihFs fs h1 h2
      | _ => simp [sanitize_document]

end document_utils

namespace utils

open PyVal

theorem usanitizeFields_cons (k : String) (v : PyVal)
    (rest : List (String × PyVal)) :
    sanitizeFields ((k, v) :: rest) = (k, sanitizeField v) :: sanitizeFields rest := by
  simp [sanitizeFields, sanitizeField]

theorem usanitizeFields_append (a b : List (String × PyVal)) :
    sanitizeFields (a ++ b) = sanitizeFields a ++ sanitizeFields b := by
  induction a with
  | nil => simp [sanitizeFields]
  | cons kv rest ih =>
    obtain ⟨k, v⟩ := kv
    simp [usanitizeFields_cons, ih]

end utils

/--
Strong-induction core for extensional agreement of the two sanitizer copies
on values containing no list and no array/Series: the per-field
transformations, field loops and top-level functions coincide.
-/
theorem sanitize_copies_agree_aux : ∀ n : Nat,
    (∀ v : PyVal, sizeOf v ≤ n → PyVal.containerRowFree v = true →
      utils.sanitizeField v = document_utils.sanitizeField v) ∧
    (∀ fs : List (String × PyVal), sizeOf fs ≤ n → PyVal.containerRowFreeFields fs = true →
      utils.sanitizeFields fs = document_utils.sanitizeFields fs) ∧
    (∀ v : PyVal, sizeOf v ≤ n → PyVal.containerRowFree v = true →
      utils.sanitize_document v = document_utils.sanitize_document v) := by
  intro n
  induction n with
  | zero =>
    refine ⟨?_, ?_, ?_⟩
    · intro v h _; exfalso; cases v <;> simp at h
    · intro fs h _; exfalso; cases fs <;> simp at h
    · intro v h _; exfalso; cases v <;> simp at h
  | succ n ih =>
    obtain ⟨ihF, ihFs, ihDoc⟩ := ih
    have hField : ∀ v : PyVal, sizeOf v ≤ n + 1 → PyVal.containerRowFree v = true →
        utils.sanitizeField v = document_utils.sanitizeField v := by
      intro v hsize hfree
      cases v with
      | vDict fs =>
        have h1 : sizeOf fs ≤ n := by simp at hsize; omega
        have h2 : PyVal.containerRowFreeFields fs = true := by
          simpa [PyVal.containerRowFree] using hfree
        simp [utils.sanitizeField, utils.sanitizeFieldE, PyVal.pdIsnaTruthy,
          PyVal.isnaScalar, document_utils.sanitizeField, document_utils.sanitizeFieldE]
        exact ihFs fs h1 h2
      | vList xs => simp [PyVal.containerRowFree] at hfree
      | vArray xs => simp [PyVal.containerRowFree] at hfree
      | vObj b =>
        cases b <;>
          simp [utils.sanitizeField, utils.sanitizeFieldE, PyVal.pdIsnaTruthy,
            PyVal.isnaScalar, document_utils.sanitizeField, document_utils.sanitizeFieldE]
      | vNpFloat q =>
        cases q <;>
          simp [utils.sanitizeField, utils.sanitizeFieldE, PyVal.pdIsnaTruthy,
            PyVal.isnaScalar, document_utils.sanitizeField, document_utils.sanitizeFieldE]
      | _ =>
        simp [utils.sanitizeField, utils.sanitizeFieldE, PyVal.pdIsnaTruthy,
          PyVal.isnaScalar, document_utils.sanitizeField, document_utils.sanitizeFieldE]
    refine ⟨hField, ?_, ?_⟩
    · intro fs hsize hfree
      cases fs with
      | nil => simp [utils.sanitizeFields, document_utils.sanitizeFields]
      | cons kv rest =>
        obtain ⟨k, v⟩ := kv
        have h1 : sizeOf v ≤ n + 1 := by simp at hsize; omega
        have h2 : sizeOf rest ≤ n := by simp at hsize; omega
        have h3 : PyVal.containerRowFree v = true ∧
            PyVal.containerRowFreeFields rest = true := by
          simpa [PyVal.containerRowFreeFields] using hfree
        rw [utils.usanitizeFields_cons, document_utils.sanitizeFields_cons,
          hField v h1 h3.1, ihFs rest h2 h3.2]
    · intro v hsize hfree
      cases v with
      | vDict fs =>
        have h1 : sizeOf fs ≤ n := by simp at hsize; omega
        have h2 : PyVal.containerRowFreeFields fs = true := by
          simpa [PyVal.containerRowFree] using hfree
        simp [utils.sanitize_document, document_utils.sanitize_document]
        exact ihFs fs h1 h2
      | _ => simp [utils.sanitize_document, document_utils.sanitize_document]

theorem attemptKinds_spec (fails : data_sync.EntityKind → Bool) :
    ∀ l : List data_sync.EntityKind,
      (data_sync.attemptKinds fails l).1 =
        l.takeWhile (fun k => !fails k) ++ (l.dropWhile (fun k => !fails k)).take 1 ∧
      (data_sync.attemptKinds fails l).2 = l.any fails := by
  intro l
  induction l with
  | nil => simp [data_sync.attemptKinds]
  | cons k rest ih =>
    by_cases h : fails k = true
    · simp [data_sync.attemptKinds, h, List.takeWhile_cons, List.dropWhile_cons]
    · have h' : fails k = false := by simpa using h
      simp [data_sync.attemptKinds, h', List.takeWhile_cons, List.dropWhile_cons, ih.1, ih.2]

theorem tables_all_attempted (tfails : String → Bool) :
    ∀ tables : List String,
      (data_lake_sync.sync_all_tables tfails tables).map Prod.fst = tables := by
  intro tables
  induction tables with
  | nil => simp [data_lake_sync.sync_all_tables]
  | cons t rest ih => simp [data_lake_sync.sync_all_tables, ih]

/--
C2 is false as stated on `DataLakeSync.sync_all_tables` of
`src/src/data_sync.py`: the five per-kind passes run inside one `try`, so
when the data-sources pass raises, the failure is caught and logged but the
users, modules, statuses, and labels passes are never attempted.
-/
theorem C2_counterexample :
    (data_sync.sync_all_tables (fun k => k == .dataSources)).1 =
      [.dataSources] ∧
    data_sync.EntityKind.users ∉
      (data_sync.sync_all_tables (fun k => k == .dataSources)).1 ∧
    (data_sync.sync_all_tables (fun k => k == .dataSources)).2 = true := by
  refine ⟨?_, ?_, ?_⟩ <;>
    simp [data_sync.sync_all_tables, data_sync.attemptKinds, data_sync.kindOrder]

/--
C2 (amended): in `sync_all_tables` of `src/src/data_sync.py` a failing
entity kind's exception is caught and logged and the method returns
normally, but the passes for the kinds after the first failing one are
skipped — the attempted kinds are exactly the failure-free front of the
fixed order plus the first failing kind.  Per-kind isolation exists only in
the table-level `sync_all_tables` of `src/data_lake_sync.py`, whose
per-table `try`/`except` attempts every table.
-/
theorem C2_amended_first_failure_skips_remaining_kinds
    (fails : data_sync.EntityKind → Bool) (tfails : String → Bool)
    (tables : List String) :
    (data_sync.sync_all_tables fails).1 =
      data_sync.kindOrder.takeWhile (fun k => !fails k) ++
        (data_sync.kindOrder.dropWhile (fun k => !fails k)).take 1 ∧
    (data_sync.sync_all_tables fails).2 = data_sync.kindOrder.any fails ∧
    (data_lake_sync.sync_all_tables tfails tables).map Prod.fst = tables :=
  ⟨(attemptKinds_spec fails data_sync.kindOrder).1,
   (attemptKinds_spec fails data_sync.kindOrder).2,
   tables_all_attempted tfails tables⟩

/--
C3 is false as stated for the `es_connector`-based passes: when the bulk
call of `ElasticsearchConnector.bulk_index` raises a batch-level transport
failure, the exception is caught and `(0, [])` is returned — no per-document
fallback indexing happens, and the caller's success/failure counters are
left unchanged, so the 2 documents of this batch are accounted for in
neither counter.
-/
theorem C3_counterexample :
    es_connector.bulk_index true (fun _ => false)
      [⟨"d1", .vNone⟩, ⟨"d2", .vNone⟩] = (0, []) ∧
    es_connector.counterUpdate (5, 7)
      (es_connector.bulk_index true (fun _ => false)
        [⟨"d1", .vNone⟩, ⟨"d2", .vNone⟩]) = (5, 7) ∧
    (0 : Nat) + 0 ≠ 2 := by
  refine ⟨rfl, rfl, by omega⟩

theorem fallbackIndexLoop_accounts_all
    (outcome : BulkAction → legacy_ticket_sync.IndexOutcome) :
    ∀ (actions : List BulkAction) (succ fail : Nat),
      (legacy_ticket_sync.fallbackIndexLoop outcome actions succ fail).1 +
        (legacy_ticket_sync.fallbackIndexLoop outcome actions succ fail).2 =
        succ + fail + actions.length := by
  intro actions
  induction actions with
  | nil => intro succ fail; simp [legacy_ticket_sync.fallbackIndexLoop]
  | cons a rest ih =>
    intro succ fail
    cases h : outcome a with
    | raises =>
      simp [legacy_ticket_sync.fallbackIndexLoop, h, ih]
      omega
    | result r =>
      by_cases hr : r = "created" ∨ r = "updated"
      · simp [legacy_ticket_sync.fallbackIndexLoop, h, hr, ih]
        omega
      · simp [legacy_ticket_sync.fallbackIndexLoop, h, hr, ih]
        omega

/--
C3 (amended): the per-document fallback exists only in the legacy
denormalized-ticket pass of `src/ticket_sync.py`: there, when the bulk call
raises, every document of the batch is indexed individually and is counted
as exactly one success or one failure, so the batch's documents are fully
accounted for in the pass counters.  (In the `es_connector`-based passes the
transport failure is swallowed inside `bulk_index`, which returns `(0, [])`
— see the counterexample.)
-/
theorem C3_amended_legacy_fallback_accounts_batch
    (itemFails : BulkAction → Bool)
    (outcome : BulkAction → legacy_ticket_sync.IndexOutcome)
    (actions : List BulkAction) (succ fail : Nat) (hne : actions ≠ []) :
    legacy_ticket_sync.indexBatch true itemFails outcome actions succ fail =
      legacy_ticket_sync.fallbackIndexLoop outcome actions succ fail ∧
    (legacy_ticket_sync.fallbackIndexLoop outcome actions succ fail).1 +
      (legacy_ticket_sync.fallbackIndexLoop outcome actions succ fail).2 =
      succ + fail + actions.length := by
  constructor
  · have h : actions.isEmpty = false := by
      cases actions with
      | nil => exact absurd rfl hne
      | cons a rest => rfl
    simp [legacy_ticket_sync.indexBatch, h, es_connector.bulkHelper]
  · exact fallbackIndexLoop_accounts_all outcome actions succ fail

/--
Witness for the amended C3 at a concrete batch: one action whose individual
indexing returns `created`; the fallback runs and accounts for the whole
batch.
-/
theorem C3_amended_witness :
    ([⟨"d1", PyVal.vNone⟩] : List BulkAction) ≠ [] ∧
    (legacy_ticket_sync.indexBatch true (fun _ => false)
        (fun _ => .result "created") [⟨"d1", PyVal.vNone⟩] 0 0 =
      legacy_ticket_sync.fallbackIndexLoop (fun _ => .result "created")
        [⟨"d1", PyVal.vNone⟩] 0 0 ∧
    (legacy_ticket_sync.fallbackIndexLoop (fun _ => .result "created")
        [⟨"d1", PyVal.vNone⟩] 0 0).1 +
      (legacy_ticket_sync.fallbackIndexLoop (fun _ => .result "created")
        [⟨"d1", PyVal.vNone⟩] 0 0).2 = 0 + 0 + 1) :=
  ⟨by simp,
   C3_amended_legacy_fallback_accounts_batch (fun _ => false)
     (fun _ => .result "created") [⟨"d1", PyVal.vNone⟩] 0 0 (by simp)⟩

/--
C6: latest-status resolution is deterministic — for three status-history
rows of one ticket with strictly increasing created timestamps, the
`DISTINCT ON ... ORDER BY "ticketId", "createdAt" DESC` query of
`get_tickets_and_labels` selects the row with the maximum timestamp,
whichever of the six input orders the rows arrive in.
-/
theorem C6_latest_status_deterministic (r1 r2 r3 : db_connector.StatusRow)
    (l : List db_connector.StatusRow)
    (horder : l = [r1, r2, r3] ∨ l = [r1, r3, r2] ∨ l = [r2, r1, r3] ∨
      l = [r2, r3, r1] ∨ l = [r3, r1, r2] ∨ l = [r3, r2, r1])
    (ht1 : r1.ticketId = r2.ticketId) (ht2 : r2.ticketId = r3.ticketId)
    (h12 : r1.createdAt < r2.createdAt) (h23 : r2.createdAt < r3.createdAt) :
    db_connector.latest_status l = [r3] := by
  have e13 : r1.ticketId = r3.ticketId := ht1.trans ht2
  have hl12 : db_connector.rowLe r1 r2 = false := by
    simp [db_connector.rowLe, ht1]
    omega
  have hl13 : db_connector.rowLe r1 r3 = false := by
    simp [db_connector.rowLe, e13]
    omega
  have hl23 : db_connector.rowLe r2 r3 = false := by
    simp [db_connector.rowLe, ht2]
    omega
  have hl21 : db_connector.rowLe r2 r1 = true := by
    simp [db_connector.rowLe, ht1]
    omega
  have hl31 : db_connector.rowLe r3 r1 = true := by
    simp [db_connector.rowLe, e13]
    omega
  have hl32 : db_connector.rowLe r3 r2 = true := by
    simp [db_connector.rowLe, ht2]
    omega
  have hsorted : db_connector.orderRows l = [r3, r2, r1] := by
    rcases horder with h | h | h | h | h | h <;> subst h <;>
      simp [db_connector.orderRows, db_connector.orderedInsertRow,
        hl12, hl13, hl23, hl21, hl31, hl32]
  unfold db_connector.latest_status
  rw [hsorted]
  simp [db_connector.distinctOnTicket, ht2, e13]

/--
Witness for C6 at a concrete scrambled history: three rows of ticket `"t"`
presented in the order (T2, T3, T1) resolve to the T3 row.
-/
theorem C6_witness :
    (([⟨"t", "s2", "doing", false, 20⟩, ⟨"t", "s3", "done", true, 30⟩,
        ⟨"t", "s1", "open", false, 10⟩] : List db_connector.StatusRow) =
          [⟨"t", "s1", "open", false, 10⟩, ⟨"t", "s2", "doing", false, 20⟩,
            ⟨"t", "s3", "done", true, 30⟩] ∨
      ([⟨"t", "s2", "doing", false, 20⟩, ⟨"t", "s3", "done", true, 30⟩,
        ⟨"t", "s1", "open", false, 10⟩] : List db_connector.StatusRow) =
          [⟨"t", "s1", "open", false, 10⟩, ⟨"t", "s3", "done", true, 30⟩,
            ⟨"t", "s2", "doing", false, 20⟩] ∨
      ([⟨"t", "s2", "doing", false, 20⟩, ⟨"t", "s3", "done", true, 30⟩,
        ⟨"t", "s1", "open", false, 10⟩] : List db_connector.StatusRow) =
          [⟨"t", "s2", "doing", false, 20⟩, ⟨"t", "s1", "open", false, 10⟩,
            ⟨"t", "s3", "done", true, 30⟩] ∨
      ([⟨"t", "s2", "doing", false, 20⟩, ⟨"t", "s3", "done", true, 30⟩,
        ⟨"t", "s1", "open", false, 10⟩] : List db_connector.StatusRow) =
          [⟨"t", "s2", "doing", false, 20⟩, ⟨"t", "s3", "done", true, 30⟩,
            ⟨"t", "s1", "open", false, 10⟩] ∨
      ([⟨"t", "s2", "doing", false, 20⟩, ⟨"t", "s3", "done", true, 30⟩,
        ⟨"t", "s1", "open", false, 10⟩] : List db_connector.StatusRow) =
          [⟨"t", "s3", "done", true, 30⟩, ⟨"t", "s1", "open", false, 10⟩,
            ⟨"t", "s2", "doing", false, 20⟩] ∨
      ([⟨"t", "s2", "doing", false, 20⟩, ⟨"t", "s3", "done", true, 30⟩,
        ⟨"t", "s1", "open", false, 10⟩] : List db_connector.StatusRow) =
          [⟨"t", "s3", "done", true, 30⟩, ⟨"t", "s2", "doing", false, 20⟩,
            ⟨"t", "s1", "open", false, 10⟩]) ∧
    db_connector.latest_status
      [⟨"t", "s2", "doing", false, 20⟩, ⟨"t", "s3", "done", true, 30⟩,
        ⟨"t", "s1", "open", false, 10⟩] =
      [⟨"t", "s3", "done", true, 30⟩] :=
  ⟨by decide,
   C6_latest_status_deterministic
     ⟨"t", "s1", "open", false, 10⟩ ⟨"t", "s2", "doing", false, 20⟩
     ⟨"t", "s3", "done", true, 30⟩ _ (by decide) rfl rfl (by decide) (by decide)⟩

/--
C4: the Value Sanitizer is idempotent on every value built from missing
markers, boxed numerics, identifiers, timestamps, binary data, and nested
dicts and lists (the array-free values): applying `sanitize_document` twice
equals applying it once.
-/
theorem C4_sanitize_document_idempotent (x : PyVal)
    (h : PyVal.arrayFree x = true) :
    document_utils.sanitize_document (document_utils.sanitize_document x) =
      document_utils.sanitize_document x :=
  (document_utils.idem_aux (sizeOf x)).2.2.2 x le_rfl h

/--
Witness for C4 at a concrete document exercising every category of the
claim's grammar.
-/
theorem C4_witness :
    PyVal.arrayFree
      (.vDict [("gone", .vNaT), ("bad", .vNaN), ("n", .vNpInt 5),
        ("f", .vNpFloat (some 3)), ("u", .vUUID "2f6c"),
        ("t", .vTimestamp "2024-01-01T00:00:00"), ("bin", .vBytes "raw"),
        ("sub", .vDict [("x", .vNone)]),
        ("lst", .vList [.vDict [("y", .vNpBool true)], .vInt 2])]) = true ∧
    document_utils.sanitize_document (document_utils.sanitize_document
      (.vDict [("gone", .vNaT), ("bad", .vNaN), ("n", .vNpInt 5),
        ("f", .vNpFloat (some 3)), ("u", .vUUID "2f6c"),
        ("t", .vTimestamp "2024-01-01T00:00:00"), ("bin", .vBytes "raw"),
        ("sub", .vDict [("x", .vNone)]),
        ("lst", .vList [.vDict [("y", .vNpBool true)], .vInt 2])])) =
      document_utils.sanitize_document
        (.vDict [("gone", .vNaT), ("bad", .vNaN), ("n", .vNpInt 5),
          ("f", .vNpFloat (some 3)), ("u", .vUUID "2f6c"),
          ("t", .vTimestamp "2024-01-01T00:00:00"), ("bin", .vBytes "raw"),
          ("sub", .vDict [("x", .vNone)]),
          ("lst", .vList [.vDict [("y", .vNpBool true)], .vInt 2])]) :=
  ⟨by simp [PyVal.arrayFree, PyVal.arrayFreeFields, PyVal.arrayFreeItems],
   C4_sanitize_document_idempotent _
     (by simp [PyVal.arrayFree, PyVal.arrayFreeFields, PyVal.arrayFreeItems])⟩

/--
C5: the Value Sanitizer is total (the embedding is a total function into
values, never into an error), and a field whose coercion raises is replaced
by `None` while every sibling field — before and after it — is sanitized
normally; the dict itself is always produced.  Stated for both copies of
`sanitize_document`.
-/
theorem C5_field_failure_isolated (pre post : List (String × PyVal))
    (k : String) (bad : PyVal)
    (h1 : document_utils.sanitizeFieldE bad = .error ())
    (h2 : utils.sanitizeFieldE bad = .error ()) :
    document_utils.sanitize_document (.vDict (pre ++ (k, bad) :: post)) =
      .vDict (document_utils.sanitizeFields pre ++
        (k, .vNone) :: document_utils.sanitizeFields post) ∧
    utils.sanitize_document (.vDict (pre ++ (k, bad) :: post)) =
      .vDict (utils.sanitizeFields pre ++
        (k, .vNone) :: utils.sanitizeFields post) := by
  constructor
  · have hb : document_utils.sanitizeField bad = .vNone := by
      simp [document_utils.sanitizeField, h1]
    simp [document_utils.sanitize_document, document_utils.sanitizeFields_append,
      document_utils.sanitizeFields_cons, hb]
  · have hb : utils.sanitizeField bad = .vNone := by
      simp [utils.sanitizeField, h2]
    simp [utils.sanitize_document, utils.usanitizeFields_append,
      utils.usanitizeFields_cons, hb]

/--
Witness for C5: a field holding an object whose `dtype` check raises is
nulled while its siblings are sanitized normally, in both copies.
-/
theorem C5_witness :
    document_utils.sanitizeFieldE (.vObj true) = .error () ∧
    utils.sanitizeFieldE (.vObj true) = .error () ∧
    (document_utils.sanitize_document
        (.vDict ([("a", .vNpInt 1)] ++ ("k", .vObj true) ::
          [("b", .vTimestamp "2024-01-02T03:04:05")])) =
      .vDict (document_utils.sanitizeFields [("a", .vNpInt 1)] ++
        ("k", PyVal.vNone) :: document_utils.sanitizeFields
          [("b", .vTimestamp "2024-01-02T03:04:05")]) ∧
    utils.sanitize_document
        (.vDict ([("a", .vNpInt 1)] ++ ("k", .vObj true) ::
          [("b", .vTimestamp "2024-01-02T03:04:05")])) =
      .vDict (utils.sanitizeFields [("a", .vNpInt 1)] ++
        ("k", PyVal.vNone) :: utils.sanitizeFields
          [("b", .vTimestamp "2024-01-02T03:04:05")])) :=
  ⟨by simp [document_utils.sanitizeFieldE],
   by simp [utils.sanitizeFieldE, PyVal.pdIsnaTruthy, PyVal.isnaScalar],
   C5_field_failure_isolated [("a", .vNpInt 1)]
     [("b", .vTimestamp "2024-01-02T03:04:05")] "k" (.vObj true)
     (by simp [document_utils.sanitizeFieldE])
     (by simp [utils.sanitizeFieldE, PyVal.pdIsnaTruthy, PyVal.isnaScalar])⟩

/--
C10 is false as stated: the two copies of `sanitize_document` disagree on a
dict field holding a two-element list — the `utils.py` copy's bare
`pd.isna(v)` truthiness raises and the field is nulled, while the
`document_utils.py` copy keeps the sanitized list.
-/
theorem C10_counterexample :
    utils.sanitize_document (.vDict [("k", .vList [.vInt 1, .vInt 2])]) =
      .vDict [("k", .vNone)] ∧
    document_utils.sanitize_document
        (.vDict [("k", .vList [.vInt 1, .vInt 2])]) =
      .vDict [("k", .vList [.vInt 1, .vInt 2])] ∧
    utils.sanitize_document (.vDict [("k", .vList [.vInt 1, .vInt 2])]) ≠
      document_utils.sanitize_document
        (.vDict [("k", .vList [.vInt 1, .vInt 2])]) := by
  refine ⟨?_, ?_, ?_⟩
  · simp [utils.sanitize_document, utils.sanitizeFields, utils.sanitizeFieldE,
      PyVal.pdIsnaTruthy, PyVal.pdIsnaItems]
  · simp [document_utils.sanitize_document, document_utils.sanitizeFields,
      document_utils.sanitizeFieldE, document_utils.sanitizeItems]
  · intro h
    rw [show utils.sanitize_document (.vDict [("k", .vList [.vInt 1, .vInt 2])]) =
        .vDict [("k", .vNone)] from by
          simp [utils.sanitize_document, utils.sanitizeFields, utils.sanitizeFieldE,
            PyVal.pdIsnaTruthy, PyVal.pdIsnaItems],
      show document_utils.sanitize_document
          (.vDict [("k", .vList [.vInt 1, .vInt 2])]) =
        .vDict [("k", .vList [.vInt 1, .vInt 2])] from by
          simp [document_utils.sanitize_document, document_utils.sanitizeFields,
            document_utils.sanitizeFieldE, document_utils.sanitizeItems]] at h
    simp at h

/--
C10 (amended): the two copies of `sanitize_document` are extensionally
equal on every value containing no list and no array/Series (scalars,
markers, boxed numerics, identifiers, timestamps, binary, and nested dicts
of such); they differ precisely on container-valued dict fields (see the
counterexample).
-/
theorem C10_amended_copies_agree_without_containers (v : PyVal)
    (h : PyVal.containerRowFree v = true) :
    utils.sanitize_document v = document_utils.sanitize_document v :=
  (sanitize_copies_agree_aux (sizeOf v)).2.2 v le_rfl h

/--
Witness for the amended C10 at a concrete container-free document.
-/
theorem C10_amended_witness :
    PyVal.containerRowFree
      (.vDict [("gone", .vNaT), ("n", .vNpInt 2), ("o", .vObj true),
        ("sub", .vDict [("u", .vUUID "ab12")])]) = true ∧
    utils.sanitize_document
        (.vDict [("gone", .vNaT), ("n", .vNpInt 2), ("o", .vObj true),
          ("sub", .vDict [("u", .vUUID "ab12")])]) =
      document_utils.sanitize_document
        (.vDict [("gone", .vNaT), ("n", .vNpInt 2), ("o", .vObj true),
          ("sub", .vDict [("u", .vUUID "ab12")])]) :=
  ⟨by simp [PyVal.containerRowFree, PyVal.containerRowFreeFields],
   C10_amended_copies_agree_without_containers _
     (by simp [PyVal.containerRowFree, PyVal.containerRowFreeFields])⟩

/--
C1 is false as stated: given the string `"[1, 2]"`, which encodes a JSON
array, `sanitize_document` returns the very same opaque string, not the
parsed (and recursively sanitized) array.
-/
theorem C1_counterexample :
    pyjson.jsonLoads "[1, 2]" = some (.vList [.vInt 1, .vInt 2]) ∧
    document_utils.sanitize_document (.vStr "[1, 2]") = .vStr "[1, 2]" ∧
    PyVal.vStr "[1, 2]" ≠ .vList [.vInt 1, .vInt 2] := by
  refine ⟨rfl, by simp [document_utils.sanitize_document], by simp⟩

/--
C1 (amended): `sanitize_document` leaves every string — including strings
encoding JSON objects or arrays — unchanged, both at top level and as a
dict-field value; the parsing of stringified JSON lives elsewhere:
`_normalize_json_fields` replaces a dict-field string that parses to a JSON
object/array by the parsed value, recursively normalized, and the
`ticket_data` handling of `sync_denormalized_tickets` replaces that field
by the sanitized parse result.
-/
theorem C1_amended_parsing_happens_outside_sanitizer (s : String) (j : PyVal)
    (k : String) (fuel : Nat)
    (hp : pyjson.jsonLoads s = some j)
    (hc : json_encoder.isContainer j = true) :
    document_utils.sanitize_document (.vStr s) = .vStr s ∧
    document_utils.sanitizeField (.vStr s) = .vStr s ∧
    json_encoder.attemptParseJsonString (.vStr s) = j ∧
    json_encoder.normalizeFields (fuel + 1) [(k, .vStr s)] =
      [(k, json_encoder.normalize_json_fields fuel j)] ∧
    ticket_sync.handleTicketData [("ticket_data", .vStr s)] =
      [("ticket_data", document_utils.sanitize_document j)] := by
  refine ⟨by simp [document_utils.sanitize_document],
    by simp [document_utils.sanitizeField, document_utils.sanitizeFieldE],
    ?_, ?_, ?_⟩
  · simp [json_encoder.attemptParseJsonString, hp, hc]
  · simp [json_encoder.normalizeFields, json_encoder.attemptParseJsonString, hp, hc]
  · simp [ticket_sync.handleTicketData, PyVal.lookupField, hp, PyVal.setField]

/--
Witness for the amended C1 at the JSON-object string for `{"a": 1}`
(written with escaped braces).
-/
theorem C1_amended_witness :
    pyjson.jsonLoads "\x7b\"a\": 1\x7d" = some (.vDict [("a", .vInt 1)]) ∧
    json_encoder.isContainer (.vDict [("a", .vInt 1)]) = true ∧
    (document_utils.sanitize_document (.vStr "\x7b\"a\": 1\x7d") =
        .vStr "\x7b\"a\": 1\x7d" ∧
      document_utils.sanitizeField (.vStr "\x7b\"a\": 1\x7d") =
        .vStr "\x7b\"a\": 1\x7d" ∧
      json_encoder.attemptParseJsonString (.vStr "\x7b\"a\": 1\x7d") =
        .vDict [("a", .vInt 1)] ∧
      json_encoder.normalizeFields 1 [("payload", .vStr "\x7b\"a\": 1\x7d")] =
        [("payload", json_encoder.normalize_json_fields 0
          (.vDict [("a", .vInt 1)]))] ∧
      ticket_sync.handleTicketData [("ticket_data", .vStr "\x7b\"a\": 1\x7d")] =
        [("ticket_data", document_utils.sanitize_document
          (.vDict [("a", .vInt 1)]))]) :=
  ⟨rfl, rfl,
   C1_amended_parsing_happens_outside_sanitizer "\x7b\"a\": 1\x7d"
     (.vDict [("a", .vInt 1)]) "payload" 0 rfl rfl⟩

theorem lookupField_setField_self (fs : List (String × PyVal)) (k : String)
    (v : PyVal) : PyVal.lookupField (PyVal.setField fs k v) k = some v := by
  induction fs with
  | nil => simp [PyVal.setField, PyVal.lookupField]
  | cons kv rest ih =>
    obtain ⟨k1, w⟩ := kv
    by_cases h : k1 = k
    · simp [PyVal.setField, PyVal.lookupField, h]
    · simp [PyVal.setField, PyVal.lookupField, h, ih]

theorem lookupField_setField_ne (fs : List (String × PyVal)) (k k2 : String)
    (v : PyVal) (h : k2 ≠ k) :
    PyVal.lookupField (PyVal.setField fs k2 v) k = PyVal.lookupField fs k := by
  induction fs with
  | nil => simp [PyVal.setField, PyVal.lookupField, h]
  | cons kv rest ih =>
    obtain ⟨k1, w⟩ := kv
    by_cases h1 : k1 = k2
    · subst h1
      simp [PyVal.setField, PyVal.lookupField, h]
    · by_cases h2 : k1 = k
      · subst h2
        simp [PyVal.setField, PyVal.lookupField, h1]
      · simp [PyVal.setField, PyVal.lookupField, h1, h2, ih]

theorem lookupField_sanitizeFields (fs : List (String × PyVal)) (key : String) :
    PyVal.lookupField (document_utils.sanitizeFields fs) key =
      (PyVal.lookupField fs key).map document_utils.sanitizeField := by
  induction fs with
  | nil => simp [document_utils.sanitizeFields, PyVal.lookupField]
  | cons kv rest ih =>
    obtain ⟨k1, v⟩ := kv
    by_cases h : k1 = key
    · simp [document_utils.sanitizeFields_cons, PyVal.lookupField,
        document_utils.sanitizeField, h]
    · simp [document_utils.sanitizeFields_cons, PyVal.lookupField,
        document_utils.sanitizeField, h, ih]

theorem lookupField_stringifyFields (fs : List (String × PyVal)) (key : String) :
    PyVal.lookupField (PyVal.stringifyFields fs) key =
      (PyVal.lookupField fs key).map PyVal.stringifyAll := by
  induction fs with
  | nil => simp [PyVal.stringifyFields, PyVal.lookupField]
  | cons kv rest ih =>
    obtain ⟨k1, v⟩ := kv
    by_cases h : k1 = key
    · simp [PyVal.stringifyFields, PyVal.lookupField, h]
    · simp [PyVal.stringifyFields, PyVal.lookupField, h, ih]

theorem action_source_lookups (ts docId : String) (fields1 : ticket_sync.Row)
    (lbls : List PyVal) :
    ticket_sync.sourceLookup
      (if PyVal.jsonSerializable (document_utils.sanitize_document
          (.vDict (PyVal.setField (PyVal.setField (PyVal.setField fields1
            "labels" (.vList lbls)) "indexed_at" (.vStr ts))
            "document_id" (.vStr docId)))) then
        document_utils.sanitize_document
          (.vDict (PyVal.setField (PyVal.setField (PyVal.setField fields1
            "labels" (.vList lbls)) "indexed_at" (.vStr ts))
            "document_id" (.vStr docId)))
      else
        PyVal.stringifyAll (document_utils.sanitize_document
          (.vDict (PyVal.setField (PyVal.setField (PyVal.setField fields1
            "labels" (.vList lbls)) "indexed_at" (.vStr ts))
            "document_id" (.vStr docId)))))
      "indexed_at" = some (.vStr ts) ∧
    ticket_sync.sourceLookup
      (if PyVal.jsonSerializable (document_utils.sanitize_document
          (.vDict (PyVal.setField (PyVal.setField (PyVal.setField fields1
            "labels" (.vList lbls)) "indexed_at" (.vStr ts))
            "document_id" (.vStr docId)))) then
        document_utils.sanitize_document
          (.vDict (PyVal.setField (PyVal.setField (PyVal.setField fields1
            "labels" (.vList lbls)) "indexed_at" (.vStr ts))
            "document_id" (.vStr docId)))
      else
        PyVal.stringifyAll (document_utils.sanitize_document
          (.vDict (PyVal.setField (PyVal.setField (PyVal.setField fields1
            "labels" (.vList lbls)) "indexed_at" (.vStr ts))
            "document_id" (.vStr docId)))))
      "document_id" = some (.vStr docId) ∧
    (lbls = [] →
      ticket_sync.sourceLookup
        (if PyVal.jsonSerializable (document_utils.sanitize_document
            (.vDict (PyVal.setField (PyVal.setField (PyVal.setField fields1
              "labels" (.vList lbls)) "indexed_at" (.vStr ts))
              "document_id" (.vStr docId)))) then
          document_utils.sanitize_document
            (.vDict (PyVal.setField (PyVal.setField (PyVal.setField fields1
              "labels" (.vList lbls)) "indexed_at" (.vStr ts))
              "document_id" (.vStr docId)))
        else
          PyVal.stringifyAll (document_utils.sanitize_document
            (.vDict (PyVal.setField (PyVal.setField (PyVal.setField fields1
              "labels" (.vList lbls)) "indexed_at" (.vStr ts))
              "document_id" (.vStr docId)))))
        "labels" = some (.vList [])) := by
  have hdoc : PyVal.lookupField (PyVal.setField (PyVal.setField (PyVal.setField
      fields1 "labels" (.vList lbls)) "indexed_at" (.vStr ts))
      "document_id" (.vStr docId)) "document_id" = some (.vStr docId) :=
    lookupField_setField_self _ _ _
  have hts : PyVal.lookupField (PyVal.setField (PyVal.setField (PyVal.setField
      fields1 "labels" (.vList lbls)) "indexed_at" (.vStr ts))
      "document_id" (.vStr docId)) "indexed_at" = some (.vStr ts) := by
    rw [lookupField_setField_ne _ _ _ _ (by decide)]
    exact lookupField_setField_self _ _ _
  have hlb : PyVal.lookupField (PyVal.setField (PyVal.setField (PyVal.setField
      fields1 "labels" (.vList lbls)) "indexed_at" (.vStr ts))
      "document_id" (.vStr docId)) "labels" = some (.vList lbls) := by
    rw [lookupField_setField_ne _ _ _ _ (by decide),
      lookupField_setField_ne _ _ _ _ (by decide)]
    exact lookupField_setField_self _ _ _
  refine ⟨?_, ?_, ?_⟩ <;>
    [skip; skip; intro hempty] <;>
    [skip; skip; subst hempty] <;>
    · split <;>
        simp [ticket_sync.sourceLookup, document_utils.sanitize_document,
          PyVal.stringifyAll, lookupField_stringifyFields,
          lookupField_sanitizeFields, hdoc, hts, hlb,
          document_utils.sanitizeField, document_utils.sanitizeFieldE,
          document_utils.sanitizeItems, PyVal.stringifyItems]

theorem buildTicketAction_spec (ts : String) (labels : ticket_sync.LabelsMap)
    (row : ticket_sync.Row) (a : BulkAction)
    (h : ticket_sync.buildTicketAction ts labels row = .ok a) :
    ∃ tid lbls, ticket_sync.rowTicketId row = .ok tid ∧
      ticket_sync.labelsGet labels tid = .ok lbls ∧
      a.id = PyVal.pyStr tid ++ "_" ++ ts ∧
      ticket_sync.sourceLookup a.source "indexed_at" = some (.vStr ts) ∧
      ticket_sync.sourceLookup a.source "document_id" = some (.vStr a.id) ∧
      (lbls = [] →
        ticket_sync.sourceLookup a.source "labels" = some (.vList [])) := by
  cases htid : ticket_sync.rowTicketId row with
  | error e =>
    simp [ticket_sync.buildTicketAction, htid, Bind.bind, Except.bind] at h
  | ok tid =>
  cases hbf : ticket_sync.buildDocFields row with
  | error e =>
    simp [ticket_sync.buildTicketAction, htid, hbf, Bind.bind, Except.bind] at h
  | ok fields0 =>
  cases hlg : ticket_sync.labelsGet labels tid with
  | error e =>
    simp [ticket_sync.buildTicketAction, htid, hbf, hlg, Bind.bind, Except.bind,
      Functor.map, Except.map] at h
  | ok lbls =>
    simp [ticket_sync.buildTicketAction, htid, hbf, hlg, Bind.bind, Except.bind,
      Functor.map, Except.map] at h
    refine ⟨tid, lbls, rfl, hlg, ?_, ?_, ?_⟩
    all_goals obtain ⟨rfl⟩ := h
    · rfl
    · exact (action_source_lookups ts (PyVal.pyStr tid ++ "_" ++ ts)
        (ticket_sync.handleTicketData fields0) lbls).1
    · exact ⟨(action_source_lookups ts (PyVal.pyStr tid ++ "_" ++ ts)
          (ticket_sync.handleTicketData fields0) lbls).2.1,
        (action_source_lookups ts (PyVal.pyStr tid ++ "_" ++ ts)
          (ticket_sync.handleTicketData fields0) lbls).2.2⟩

theorem buildActions_mem (ts : String) (labels : ticket_sync.LabelsMap) :
    ∀ (rows' : List ticket_sync.Row) (a : BulkAction),
      a ∈ (ticket_sync.buildActions ts labels rows').1 →
      ∃ r, r ∈ rows' ∧ ticket_sync.buildTicketAction ts labels r = .ok a := by
  intro rows'
  induction rows' with
  | nil => intro a ha; simp [ticket_sync.buildActions] at ha
  | cons r rest ih =>
    intro a ha
    cases hb : ticket_sync.buildTicketAction ts labels r with
    | ok a' =>
      rw [show ticket_sync.buildActions ts labels (r :: rest) =
          (a' :: (ticket_sync.buildActions ts labels rest).1,
            (ticket_sync.buildActions ts labels rest).2) from by
        simp [ticket_sync.buildActions, hb]] at ha
      rcases List.mem_cons.mp ha with h1 | h2
      · exact ⟨r, List.mem_cons_self r rest, h1 ▸ hb⟩
      · obtain ⟨r2, hr2, hb2⟩ := ih a h2
        exact ⟨r2, List.mem_cons_of_mem r hr2, hb2⟩
    | error e =>
      rw [show ticket_sync.buildActions ts labels (r :: rest) =
          ((ticket_sync.buildActions ts labels rest).1,
            (ticket_sync.buildActions ts labels rest).2 + 1) from by
        simp [ticket_sync.buildActions, hb]] at ha
      obtain ⟨r2, hr2, hb2⟩ := ih a ha
      exact ⟨r2, List.mem_cons_of_mem r hr2, hb2⟩

theorem batchCalls_mem_action :
    ∀ (n : Nat) (ts : String) (labels : ticket_sync.LabelsMap)
      (rows : List ticket_sync.Row) (bs start : Nat),
      rows.length - start ≤ n →
      ∀ c ∈ ticket_sync.batchCalls ts labels rows bs start, ∀ a ∈ c.actions,
        ∃ row, row ∈ rows ∧ ticket_sync.buildTicketAction ts labels row = .ok a := by
  intro n
  induction n with
  | zero =>
    intro ts labels rows bs start hle c hc a ha
    unfold ticket_sync.batchCalls at hc
    rw [dif_neg (by omega : ¬(0 < bs ∧ start < rows.length))] at hc
    simp at hc
  | succ n ih =>
    intro ts labels rows bs start hle c hc a ha
    unfold ticket_sync.batchCalls at hc
    by_cases hcond : 0 < bs ∧ start < rows.length
    · rw [dif_pos hcond] at hc
      simp only [] at hc
      rcases List.mem_append.mp hc with h1 | h2
      · by_cases hemp :
          ((ticket_sync.buildActions ts labels ((rows.drop start).take
            (min (start + bs) rows.length - start))).1).isEmpty
        · simp [hemp] at h1
        · simp [hemp] at h1
          subst h1
          obtain ⟨r, hr, hb⟩ := buildActions_mem ts labels _ a ha
          exact ⟨r, List.drop_subset start rows (List.take_subset _ _ hr), hb⟩
      · exact ih ts labels rows bs (min (start + bs) rows.length)
          (by omega) c h2 a ha
    · rw [dif_neg hcond] at hc
      simp at hc

theorem batchCalls_refresh :
    ∀ (n : Nat) (ts : String) (labels : ticket_sync.LabelsMap)
      (rows : List ticket_sync.Row) (bs start : Nat),
      rows.length - start ≤ n →
      ∀ c ∈ ticket_sync.batchCalls ts labels rows bs start,
        c.batchEnd ≤ rows.length ∧
          (c.refresh = true ↔ c.batchEnd = rows.length) := by
  intro n
  induction n with
  | zero =>
    intro ts labels rows bs start hle c hc
    unfold ticket_sync.batchCalls at hc
    rw [dif_neg (by omega : ¬(0 < bs ∧ start < rows.length))] at hc
    simp at hc
  | succ n ih =>
    intro ts labels rows bs start hle c hc
    unfold ticket_sync.batchCalls at hc
    by_cases hcond : 0 < bs ∧ start < rows.length
    · rw [dif_pos hcond] at hc
      simp only [] at hc
      rcases List.mem_append.mp hc with h1 | h2
      · by_cases hemp :
          ((ticket_sync.buildActions ts labels ((rows.drop start).take
            (min (start + bs) rows.length - start))).1).isEmpty
        · simp [hemp] at h1
        · simp [hemp] at h1
          subst h1
          exact ⟨by simp, by simp⟩
      · exact ih ts labels rows bs (min (start + bs) rows.length) (by omega) c h2
    · rw [dif_neg hcond] at hc
      simp at hc

theorem addLabelGo_keys (m : ticket_sync.LabelsMap) (key : PyVal)
    (entry : PyVal) :
    ∀ e ∈ ticket_sync.addLabelGo m key entry,
      (∃ e0 ∈ m, e.1 = e0.1) ∨ e.1 = key := by
  induction m with
  | nil =>
    intro e he
    simp [ticket_sync.addLabelGo] at he
    right
    simp [he]
  | cons kv rest ih =>
    obtain ⟨k, es⟩ := kv
    intro e he
    by_cases h : PyVal.pyEq k key = true
    · simp [ticket_sync.addLabelGo, h] at he
      rcases he with he | he
      · left
        exact ⟨(k, es), by simp, by simp [he]⟩
      · left
        exact ⟨e, by simp [he], rfl⟩
    · simp [ticket_sync.addLabelGo, h] at he
      rcases he with he | he
      · left
        exact ⟨(k, es), by simp, by simp [he]⟩
      · rcases ih e he with ⟨e0, he0, heq⟩ | heq
        · exact Or.inl ⟨e0, by simp [he0], heq⟩
        · exact Or.inr heq

theorem processLabelsGo_keys :
    ∀ (rows : List ticket_sync.Row) (m0 m : ticket_sync.LabelsMap),
      ticket_sync.processLabelsGo rows m0 = .ok m →
      ∀ e ∈ m, (∃ e0 ∈ m0, e.1 = e0.1) ∨
        ∃ r ∈ rows, ∃ p, ticket_sync.labelRowEntry r = .ok p ∧ e.1 = p.1 := by
  intro rows
  induction rows with
  | nil =>
    intro m0 m hp e he
    simp [ticket_sync.processLabelsGo] at hp
    subst hp
    exact Or.inl ⟨e, he, rfl⟩
  | cons r rest ih =>
    intro m0 m hp e he
    cases hre : ticket_sync.labelRowEntry r with
    | error u =>
      simp [ticket_sync.processLabelsGo, hre, Bind.bind, Except.bind] at hp
    | ok p =>
      cases hal : ticket_sync.addLabel m0 p.1 p.2 with
      | error u =>
        simp [ticket_sync.processLabelsGo, hre, hal, Bind.bind, Except.bind] at hp
      | ok m1 =>
        have hp' : ticket_sync.processLabelsGo rest m1 = .ok m := by
          simpa [ticket_sync.processLabelsGo, hre, hal, Bind.bind, Except.bind]
            using hp
        have hm1 : m1 = ticket_sync.addLabelGo m0 p.1 p.2 := by
          by_cases hh : PyVal.keyHashable p.1 = true
          · simpa [ticket_sync.addLabel, hh] using hal.symm
          · simp [ticket_sync.addLabel, hh] at hal
        rcases ih m1 m hp' e he with ⟨e0, he0, heq⟩ | ⟨r2, hr2, p2, hp2, heq⟩
        · subst hm1
          rcases addLabelGo_keys m0 p.1 p.2 e0 he0 with ⟨e1, he1, heq1⟩ | heq1
          · exact Or.inl ⟨e1, he1, heq.trans heq1⟩
          · exact Or.inr ⟨r, by simp, p, hre, heq.trans heq1⟩
        · exact Or.inr ⟨r2, by simp [hr2], p2, hp2, heq⟩

theorem labelsGetGo_no_match (m : ticket_sync.LabelsMap) (key : PyVal)
    (h : ∀ e ∈ m, PyVal.pyEq e.1 key = false) :
    ticket_sync.labelsGetGo m key = [] := by
  induction m with
  | nil => simp [ticket_sync.labelsGetGo]
  | cons kv rest ih =>
    obtain ⟨k, es⟩ := kv
    have hk : PyVal.pyEq k key = false := h (k, es) (by simp)
    simp [ticket_sync.labelsGetGo, hk]
    exact ih (fun e he => h e (by simp [he]))

/--
C7: in every historical-append pass, the pass timestamp is a single value
fixed before batching, and every action of every dispatched bulk request
carries `indexed_at` equal to that timestamp and `document_id` equal to the
entity's natural (ticket) id concatenated with `"_"` and that timestamp;
the `_id` under which the document is upserted equals that `document_id`.
-/
theorem C7_historical_append_identity (ts : String)
    (tickets labelRows : List ticket_sync.Row) (bs : Nat)
    (calls : List ticket_sync.BulkCall)
    (hp : ticket_sync.sync_denormalized_tickets ts tickets labelRows bs = .ok calls)
    (c : ticket_sync.BulkCall) (hc : c ∈ calls)
    (a : BulkAction) (ha : a ∈ c.actions) :
    ∃ row tid, row ∈ tickets ∧ ticket_sync.rowTicketId row = .ok tid ∧
      a.id = PyVal.pyStr tid ++ "_" ++ ts ∧
      ticket_sync.sourceLookup a.source "indexed_at" = some (.vStr ts) ∧
      ticket_sync.sourceLookup a.source "document_id" = some (.vStr a.id) := by
  cases hpl : ticket_sync.process_ticket_labels labelRows with
  | error e =>
    simp [ticket_sync.sync_denormalized_tickets, hpl, Bind.bind, Except.bind] at hp
  | ok labels =>
    have hcalls : calls = ticket_sync.batchCalls ts labels tickets bs 0 := by
      simpa [ticket_sync.sync_denormalized_tickets, hpl, Bind.bind, Except.bind,
        pure, Except.pure] using hp.symm
    subst hcalls
    obtain ⟨row, hrow, hb⟩ :=
      batchCalls_mem_action tickets.length ts labels tickets bs 0 (by omega) c hc a ha
    obtain ⟨tid, lbls, h1, h2, h3, h4, h5, h6⟩ :=
      buildTicketAction_spec ts labels row a hb
    exact ⟨row, tid, hrow, h1, h3, h4, h5⟩

/--
C8: every dispatched bulk request of a pass has refresh enabled exactly
when its batch is the final one — the batch whose end offset equals the
total row count; every earlier batch (end offset strictly below the total)
is dispatched with refresh disabled.
-/
theorem C8_refresh_exactly_on_final_batch (ts : String)
    (tickets labelRows : List ticket_sync.Row) (bs : Nat)
    (calls : List ticket_sync.BulkCall) (_hbs : 0 < bs) (_hne : tickets ≠ [])
    (hp : ticket_sync.sync_denormalized_tickets ts tickets labelRows bs = .ok calls)
    (c : ticket_sync.BulkCall) (hc : c ∈ calls) :
    c.batchEnd ≤ tickets.length ∧
      (c.refresh = true ↔ c.batchEnd = tickets.length) := by
  cases hpl : ticket_sync.process_ticket_labels labelRows with
  | error e =>
    simp [ticket_sync.sync_denormalized_tickets, hpl, Bind.bind, Except.bind] at hp
  | ok labels =>
    have hcalls : calls = ticket_sync.batchCalls ts labels tickets bs 0 := by
      simpa [ticket_sync.sync_denormalized_tickets, hpl, Bind.bind, Except.bind,
        pure, Except.pure] using hp.symm
    subst hcalls
    exact batchCalls_refresh tickets.length ts labels tickets bs 0 (by omega) c hc

/--
C9: a ticket whose id matches no label row's (converted) ticket id gets a
document whose `labels` field is present and equal to the empty list —
never absent, never `None`.
-/
theorem C9_no_labels_yields_empty_list (ts : String)
    (labelRows : List ticket_sync.Row) (labels : ticket_sync.LabelsMap)
    (row : ticket_sync.Row) (a : BulkAction) (tid : PyVal)
    (hpl : ticket_sync.process_ticket_labels labelRows = .ok labels)
    (hb : ticket_sync.buildTicketAction ts labels row = .ok a)
    (htid : ticket_sync.rowTicketId row = .ok tid)
    (hno : ∀ r ∈ labelRows, ∀ p, ticket_sync.labelRowEntry r = .ok p →
      PyVal.pyEq p.1 tid = false) :
    ticket_sync.sourceLookup a.source "labels" = some (.vList []) := by
  obtain ⟨tid', lbls, h1, h2, h3, h4, h5, h6⟩ :=
    buildTicketAction_spec ts labels row a hb
  have htid2 : tid' = tid := by
    rw [htid] at h1
    exact (Except.ok.inj h1).symm
  subst htid2
  have hpl' : ticket_sync.processLabelsGo labelRows [] = .ok labels := by
    simpa [ticket_sync.process_ticket_labels] using hpl
  have hnomatch : ∀ e ∈ labels, PyVal.pyEq e.1 tid' = false := by
    intro e he
    rcases processLabelsGo_keys labelRows [] labels hpl' e he with
      ⟨e0, he0, _⟩ | ⟨r, hr, p, hpe, heq⟩
    · simp at he0
    · rw [heq]
      exact hno r hr p hpe
  have hgo : ticket_sync.labelsGetGo labels tid' = [] :=
    labelsGetGo_no_match labels tid' hnomatch
  have hlbls : lbls = [] := by
    by_cases hh : PyVal.keyHashable tid' = true
    · rw [show ticket_sync.labelsGet labels tid' =
          .ok (ticket_sync.labelsGetGo labels tid') from by
            simp [ticket_sync.labelsGet, hh], hgo] at h2
      exact (Except.ok.inj h2).symm
    · simp [ticket_sync.labelsGet, hh] at h2
  exact h6 hlbls

theorem C7_witness :
    ticket_sync.sync_denormalized_tickets "2024"
        [[("ticket_id", .vStr "t1")]] [] 50 =
      .ok [⟨[⟨"t1_2024", .vDict [("ticket_id", .vStr "t1"),
          ("labels", .vList []), ("indexed_at", .vStr "2024"),
          ("document_id", .vStr "t1_2024")]⟩], true, 0, 1⟩] ∧
    (∃ row tid, row ∈ [[("ticket_id", PyVal.vStr "t1")]] ∧
      ticket_sync.rowTicketId row = .ok tid ∧
      ("t1_2024" : String) = PyVal.pyStr tid ++ "_" ++ "2024" ∧
      ticket_sync.sourceLookup
        (.vDict [("ticket_id", .vStr "t1"), ("labels", .vList []),
          ("indexed_at", .vStr "2024"), ("document_id", .vStr "t1_2024")])
        "indexed_at" = some (.vStr "2024") ∧
      ticket_sync.sourceLookup
        (.vDict [("ticket_id", .vStr "t1"), ("labels", .vList []),
          ("indexed_at", .vStr "2024"), ("document_id", .vStr "t1_2024")])
        "document_id" = some (.vStr "t1_2024")) :=
  ⟨by simp [ticket_sync.sync_denormalized_tickets,
      ticket_sync.process_ticket_labels, ticket_sync.processLabelsGo,
      ticket_sync.batchCalls, ticket_sync.buildActions,
      ticket_sync.buildTicketAction, ticket_sync.rowTicketId,
      ticket_sync.rowGet, PyVal.lookupField, ticket_sync.buildDocFields,
      ticket_sync.convertVal, PyVal.pdIsnaTruthy, PyVal.isnaScalar,
      ticket_sync.handleTicketData, ticket_sync.labelsGet,
      ticket_sync.labelsGetGo, PyVal.keyHashable, PyVal.setField, PyVal.pyStr,
      document_utils.sanitize_document, document_utils.sanitizeFields,
      document_utils.sanitizeFieldE, document_utils.sanitizeItems,
      PyVal.jsonSerializable, PyVal.jsonSerializableFields,
      PyVal.jsonSerializableItems, Bind.bind, Except.bind, Functor.map,
      Except.map, pure, Except.pure],
   C7_historical_append_identity "2024" [[("ticket_id", .vStr "t1")]] [] 50
     [⟨[⟨"t1_2024", .vDict [("ticket_id", .vStr "t1"), ("labels", .vList []),
        ("indexed_at", .vStr "2024"), ("document_id", .vStr "t1_2024")]⟩],
        true, 0, 1⟩]
     (by simp [ticket_sync.sync_denormalized_tickets,
        ticket_sync.process_ticket_labels, ticket_sync.processLabelsGo,
        ticket_sync.batchCalls, ticket_sync.buildActions,
        ticket_sync.buildTicketAction, ticket_sync.rowTicketId,
        ticket_sync.rowGet, PyVal.lookupField, ticket_sync.buildDocFields,
        ticket_sync.convertVal, PyVal.pdIsnaTruthy, PyVal.isnaScalar,
        ticket_sync.handleTicketData, ticket_sync.labelsGet,
        ticket_sync.labelsGetGo, PyVal.keyHashable, PyVal.setField,
        PyVal.pyStr, document_utils.sanitize_document,
        document_utils.sanitizeFields, document_utils.sanitizeFieldE,
        document_utils.sanitizeItems, PyVal.jsonSerializable,
        PyVal.jsonSerializableFields, PyVal.jsonSerializableItems, Bind.bind,
        Except.bind, Functor.map, Except.map, pure, Except.pure])
     ⟨[⟨"t1_2024", .vDict [("ticket_id", .vStr "t1"), ("labels", .vList []),
        ("indexed_at", .vStr "2024"), ("document_id", .vStr "t1_2024")]⟩],
        true, 0, 1⟩ (by simp)
     ⟨"t1_2024", .vDict [("ticket_id", .vStr "t1"), ("labels", .vList []),
        ("indexed_at", .vStr "2024"), ("document_id", .vStr "t1_2024")]⟩
     (by simp)⟩

theorem C8_witness :
    (0 : Nat) < 50 ∧ ([[("ticket_id", PyVal.vStr "t9")]] : List ticket_sync.Row) ≠ [] ∧
    ticket_sync.sync_denormalized_tickets "2025"
        [[("ticket_id", .vStr "t9")]] [] 50 =
      .ok [⟨[⟨"t9_2025", .vDict [("ticket_id", .vStr "t9"),
          ("labels", .vList []), ("indexed_at", .vStr "2025"),
          ("document_id", .vStr "t9_2025")]⟩], true, 0, 1⟩] ∧
    ((1 : Nat) ≤ 1 ∧ ((true = true) ↔ (1 = 1))) :=
  ⟨by omega, by simp,
   by simp [ticket_sync.sync_denormalized_tickets,
      ticket_sync.process_ticket_labels, ticket_sync.processLabelsGo,
      ticket_sync.batchCalls, ticket_sync.buildActions,
      ticket_sync.buildTicketAction, ticket_sync.rowTicketId,
      ticket_sync.rowGet, PyVal.lookupField, ticket_sync.buildDocFields,
      ticket_sync.convertVal, PyVal.pdIsnaTruthy, PyVal.isnaScalar,
      ticket_sync.handleTicketData, ticket_sync.labelsGet,
      ticket_sync.labelsGetGo, PyVal.keyHashable, PyVal.setField, PyVal.pyStr,
      document_utils.sanitize_document, document_utils.sanitizeFields,
      document_utils.sanitizeFieldE, document_utils.sanitizeItems,
      PyVal.jsonSerializable, PyVal.jsonSerializableFields,
      PyVal.jsonSerializableItems, Bind.bind, Except.bind, Functor.map,
      Except.map, pure, Except.pure],
   C8_refresh_exactly_on_final_batch "2025" [[("ticket_id", .vStr "t9")]] [] 50
     [⟨[⟨"t9_2025", .vDict [("ticket_id", .vStr "t9"), ("labels", .vList []),
        ("indexed_at", .vStr "2025"), ("document_id", .vStr "t9_2025")]⟩],
        true, 0, 1⟩]
     (by omega) (by simp)
     (by simp [ticket_sync.sync_denormalized_tickets,
        ticket_sync.process_ticket_labels, ticket_sync.processLabelsGo,
        ticket_sync.batchCalls, ticket_sync.buildActions,
        ticket_sync.buildTicketAction, ticket_sync.rowTicketId,
        ticket_sync.rowGet, PyVal.lookupField, ticket_sync.buildDocFields,
        ticket_sync.convertVal, PyVal.pdIsnaTruthy, PyVal.isnaScalar,
        ticket_sync.handleTicketData, ticket_sync.labelsGet,
        ticket_sync.labelsGetGo, PyVal.keyHashable, PyVal.setField,
        PyVal.pyStr, document_utils.sanitize_document,
        document_utils.sanitizeFields, document_utils.sanitizeFieldE,
        document_utils.sanitizeItems, PyVal.jsonSerializable,
        PyVal.jsonSerializableFields, PyVal.jsonSerializableItems, Bind.bind,
        Except.bind, Functor.map, Except.map, pure, Except.pure])
     ⟨[⟨"t9_2025", .vDict [("ticket_id", .vStr "t9"), ("labels", .vList []),
        ("indexed_at", .vStr "2025"), ("document_id", .vStr "t9_2025")]⟩],
        true, 0, 1⟩ (by simp)⟩

theorem C9_witness :
    ticket_sync.process_ticket_labels
        [[("ticketId", .vStr "t2"), ("label_id", .vStr "L1"),
          ("label_name", .vStr "Bug"), ("color", .vStr "red")]] =
      .ok [(.vStr "t2", [.vDict [("id", .vStr "L1"), ("name", .vStr "Bug"),
        ("color", .vStr "red")]])] ∧
    ticket_sync.buildTicketAction "2026"
        [(.vStr "t2", [.vDict [("id", .vStr "L1"), ("name", .vStr "Bug"),
          ("color", .vStr "red")]])]
        [("ticket_id", .vStr "t1")] =
      .ok ⟨"t1_2026", .vDict [("ticket_id", .vStr "t1"), ("labels", .vList []),
        ("indexed_at", .vStr "2026"), ("document_id", .vStr "t1_2026")]⟩ ∧
    ticket_sync.rowTicketId [("ticket_id", .vStr "t1")] = .ok (.vStr "t1") ∧
    ticket_sync.sourceLookup
      (.vDict [("ticket_id", .vStr "t1"), ("labels", .vList []),
        ("indexed_at", .vStr "2026"), ("document_id", .vStr "t1_2026")])
      "labels" = some (.vList []) :=
  ⟨by simp [ticket_sync.process_ticket_labels, ticket_sync.processLabelsGo,
      ticket_sync.labelRowEntry, ticket_sync.rowGet, PyVal.lookupField,
      ticket_sync.uuidToStr, PyVal.pdIsnaTruthy, PyVal.isnaScalar,
      ticket_sync.addLabel, ticket_sync.addLabelGo, PyVal.keyHashable,
      Bind.bind, Except.bind, pure, Except.pure],
   by simp [ticket_sync.buildTicketAction, ticket_sync.rowTicketId,
      ticket_sync.rowGet, PyVal.lookupField, ticket_sync.buildDocFields,
      ticket_sync.convertVal, PyVal.pdIsnaTruthy, PyVal.isnaScalar,
      ticket_sync.handleTicketData, ticket_sync.labelsGet,
      ticket_sync.labelsGetGo, PyVal.keyHashable, PyVal.pyEq, PyVal.numVal,
      PyVal.setField, PyVal.pyStr, document_utils.sanitize_document,
      document_utils.sanitizeFields, document_utils.sanitizeFieldE,
      document_utils.sanitizeItems, PyVal.jsonSerializable,
      PyVal.jsonSerializableFields, PyVal.jsonSerializableItems, Bind.bind,
      Except.bind, Functor.map, Except.map, pure, Except.pure],
   by simp [ticket_sync.rowTicketId, ticket_sync.rowGet, PyVal.lookupField,
      Bind.bind, Except.bind, pure, Except.pure],
   C9_no_labels_yields_empty_list "2026"
     [[("ticketId", .vStr "t2"), ("label_id", .vStr "L1"),
       ("label_name", .vStr "Bug"), ("color", .vStr "red")]]
     [(.vStr "t2", [.vDict [("id", .vStr "L1"), ("name", .vStr "Bug"),
       ("color", .vStr "red")]])]
     [("ticket_id", .vStr "t1")]
     ⟨"t1_2026", .vDict [("ticket_id", .vStr "t1"), ("labels", .vList []),
       ("indexed_at", .vStr "2026"), ("document_id", .vStr "t1_2026")]⟩
     (.vStr "t1")
     (by simp [ticket_sync.process_ticket_labels, ticket_sync.processLabelsGo,
        ticket_sync.labelRowEntry, ticket_sync.rowGet, PyVal.lookupField,
        ticket_sync.uuidToStr, PyVal.pdIsnaTruthy, PyVal.isnaScalar,
        ticket_sync.addLabel, ticket_sync.addLabelGo, PyVal.keyHashable,
        Bind.bind, Except.bind, pure, Except.pure])
     (by simp [ticket_sync.buildTicketAction, ticket_sync.rowTicketId,
        ticket_sync.rowGet, PyVal.lookupField, ticket_sync.buildDocFields,
        ticket_sync.convertVal, PyVal.pdIsnaTruthy, PyVal.isnaScalar,
        ticket_sync.handleTicketData, ticket_sync.labelsGet,
        ticket_sync.labelsGetGo, PyVal.keyHashable, PyVal.pyEq, PyVal.numVal,
        PyVal.setField, PyVal.pyStr, document_utils.sanitize_document,
        document_utils.sanitizeFields, document_utils.sanitizeFieldE,
        document_utils.sanitizeItems, PyVal.jsonSerializable,
        PyVal.jsonSerializableFields, PyVal.jsonSerializableItems, Bind.bind,
        Except.bind, Functor.map, Except.map, pure, Except.pure])
     (by simp [ticket_sync.rowTicketId, ticket_sync.rowGet, PyVal.lookupField,
        Bind.bind, Except.bind, pure, Except.pure])
     (by
        intro r hr p hp
        simp at hr
        subst hr
        simp [ticket_sync.labelRowEntry, ticket_sync.rowGet, PyVal.lookupField,
          ticket_sync.uuidToStr, PyVal.pdIsnaTruthy, PyVal.isnaScalar,
          Bind.bind, Except.bind, pure, Except.pure] at hp
        rw [show p = ((PyVal.vStr "t2"), PyVal.vDict [("id", .vStr "L1"),
          ("name", .vStr "Bug"), ("color", .vStr "red")]) from by
            cases p
            simp at hp
            simp [hp.1, hp.2]]
        simp [PyVal.pyEq, PyVal.numVal])⟩
